import Mathlib

/-! # Status-bar panel plugin: block store, sanitizer and renderer

A shallow embedding of `panel-plugin/sample.c` and `panel-plugin/sample.h`.

* A C `char` is a natural number, its unsigned value; a `char *` is the list of bytes found in
  memory from the pointer on, and the C string it denotes is the part before the first
  NUL (`cstr`).
* `SamplePlugin` mirrors the C structure of the same name.  The label widget is
  represented by what it currently shows, and the GLib main loop by the number of
  `update_display` idle callbacks that have been queued.
* `pango_parse_markup` and `g_markup_escape_text` belong to Pango and GLib, not to the
  plugin.  The plugin functions take them as a parameter (`MarkupApi`); `glib` is a
  reference model of the two routines written from their documentation.
* Text lengths are natural numbers: every text the workers hand to `update_block` is a
  `printf`-formatted line far shorter than `INT_MAX`, so `int len = strlen (..)` is exact.
-/

namespace StatusBar

/-! ## Bytes and C strings -/

/-- UTF-8 encoding of a code point. -/
def utf8Encode (c : Nat) : List Nat :=
  if c < 0x80 then [c]
  else if c < 0x800 then [0xC0 + c / 0x40, 0x80 + c % 0x40]
  else if c < 0x10000 then [0xE0 + c / 0x1000, 0x80 + c / 0x40 % 0x40, 0x80 + c % 0x40]
  else [0xF0 + c / 0x40000, 0x80 + c / 0x1000 % 0x40, 0x80 + c / 0x40 % 0x40, 0x80 + c % 0x40]

/-- The bytes of a string literal of the source file (UTF-8, without the terminator). -/
def lit (s : String) : List Nat :=
  s.toList.flatMap (fun c => utf8Encode c.toNat)

/-- The C string a `char *` denotes: the bytes before the first NUL. -/
def cstr (p : List Nat) : List Nat :=
  p.takeWhile (fun b => b != 0)

/-- The C library's `strlen`. -/
def strlen (p : List Nat) : Nat :=
  (cstr p).length

/-- The C library's `memcpy (dst, src, n)` on the bytes of `dst`. -/
def memcpy (dst src : List Nat) (n : Nat) : List Nat :=
  src.take n ++ dst.drop n

/-! ## Data model (`sample.h`) -/

/-- The macro `MAX_BLOCK_SIZE`. -/
abbrev MAX_BLOCK_SIZE : Nat := 256

/-- The enumerator `BLOCK_WEATHER`. -/
abbrev BLOCK_WEATHER : Nat := 0
/-- The enumerator `BLOCK_EXCHANGE_RATE`. -/
abbrev BLOCK_EXCHANGE_RATE : Nat := 1
/-- The enumerator `BLOCK_BATTERY`. -/
abbrev BLOCK_BATTERY : Nat := 2
/-- The enumerator `BLOCK_MEMORY`. -/
abbrev BLOCK_MEMORY : Nat := 3
/-- The enumerator `BLOCK_DATE`. -/
abbrev BLOCK_DATE : Nat := 4
/-- The enumerator `BLOCK_COUNT`. -/
abbrev BLOCK_COUNT : Nat := 5

/-- The C structure `BlockData`: a length and an array of `MAX_BLOCK_SIZE` bytes. -/
structure BlockData where
  len : Int
  data : List Nat
deriving DecidableEq, Repr

/-- The five producers, used to name the function a worker thread runs. -/
inductive Worker where
  | date | memory | weather | exchange | battery
deriving DecidableEq, Repr

/-- The C structure `StatusThread`; `thread` is `none` for a NULL handle. -/
structure StatusThread where
  thread : Option Worker
  running : Bool
deriving DecidableEq, Repr

/-- What the label widget shows: parsed markup or plain text. -/
inductive LabelContent where
  | markup (s : List Nat)
  | text (s : List Nat)
deriving DecidableEq, Repr

/-- The C structure `SamplePlugin`.  `label` is `none` for a NULL widget pointer and
otherwise holds what the label shows; `idle_pending` counts the `update_display`
callbacks queued with `g_idle_add`. -/
structure SamplePlugin where
  label : Option LabelContent
  blocks : Fin BLOCK_COUNT → BlockData
  date_thread : StatusThread
  memory_thread : StatusThread
  weather_thread : StatusThread
  exchange_thread : StatusThread
  battery_thread : StatusThread
  weather_location : Option (List Nat)
  exchange_api_key : Option (List Nat)
  update_interval : Int
  show_weather : Bool
  show_exchange : Bool
  show_battery : Bool
  show_memory : Bool
  show_date : Bool
  idle_pending : Nat

/-- The two library routines the plugin calls on block texts.  `pango_parse_markup t`
tells whether `pango_parse_markup (t, -1, 0, NULL, NULL, NULL, NULL)` succeeds and
`g_markup_escape_text t` is the string `g_markup_escape_text (t, -1)` returns, both on
the C string `t`. -/
structure MarkupApi where
  pango_parse_markup : List Nat → Bool
  g_markup_escape_text : List Nat → List Nat

/-! ## Block store: `update_block` -/

/-- The text `update_block` stores for the C string `t` (its local `validated_text`):
`t` itself when it parses as markup, its escaped form otherwise. -/
def validated_text (api : MarkupApi) (t : List Nat) : List Nat :=
  if api.pango_parse_markup t then t else cstr (api.g_markup_escape_text t)

/-- The length `update_block` stores: `strlen (validated_text)`, capped. -/
def stored_len (v : List Nat) : Nat :=
  if strlen v ≥ MAX_BLOCK_SIZE then MAX_BLOCK_SIZE - 1 else strlen v

/-- The three assignments of `update_block` on one block. -/
def store_block (b : BlockData) (v : List Nat) : BlockData :=
  let len := stored_len v
  { len := (len : Int), data := (memcpy b.data v len).set len 0 }

/-- The function `update_block`.  `text` is `none` for a NULL pointer. -/
def update_block (api : MarkupApi) (sample : SamplePlugin) (block_id : Nat)
    (text : Option (List Nat)) : SamplePlugin :=
  match text with
  | none => sample
  | some p =>
    if h : block_id < BLOCK_COUNT then
      let v := validated_text api (cstr p)
      { sample with
        blocks := Function.update sample.blocks ⟨block_id, h⟩
          (store_block (sample.blocks ⟨block_id, h⟩) v)
        idle_pending := sample.idle_pending + 1 }
    else sample

/-! ## Renderer: `update_display` -/

/-- The `switch` of `update_display`: the show flag of block `i`. -/
def show_block (sample : SamplePlugin) (i : Nat) : Bool :=
  if i = BLOCK_WEATHER then sample.show_weather
  else if i = BLOCK_EXCHANGE_RATE then sample.show_exchange
  else if i = BLOCK_BATTERY then sample.show_battery
  else if i = BLOCK_MEMORY then sample.show_memory
  else if i = BLOCK_DATE then sample.show_date
  else false

/-- One iteration of the loop of `update_display` on `display_text`, for the index `i`. -/
def display_step (sample : SamplePlugin) (display_text : List Nat) (i : Nat) : List Nat :=
  if h : i < BLOCK_COUNT then
    if show_block sample i && decide ((sample.blocks ⟨i, h⟩).len > 0) then
      (if display_text.length > 0 then display_text ++ lit " | " else display_text)
        ++ cstr (sample.blocks ⟨i, h⟩).data
    else display_text
  else display_text

/-- The string `update_display` composes: its loop `for (i = 0; i < BLOCK_COUNT; i++)`
run from the empty string. -/
def display_text (sample : SamplePlugin) : List Nat :=
  (List.range BLOCK_COUNT).foldl (display_step sample) []

/-- The function `update_display`: the plugin after the call. -/
def update_display (api : MarkupApi) (sample : SamplePlugin) : SamplePlugin :=
  match sample.label with
  | none => sample
  | some _ =>
    let d := display_text sample
    if d.length > 0 then
      if api.pango_parse_markup d then { sample with label := some (.markup d) }
      else { sample with label := some (.text (lit "Status Error")) }
    else { sample with label := some (.text (lit "Loading...")) }

/-! ## The composed string, following the specification -/

/-- The blocks in `BlockId` order, each with its enable flag. -/
def flagged_blocks (sample : SamplePlugin) : List (Bool × BlockData) :=
  [(sample.show_weather, sample.blocks 0), (sample.show_exchange, sample.blocks 1),
   (sample.show_battery, sample.blocks 2), (sample.show_memory, sample.blocks 3),
   (sample.show_date, sample.blocks 4)]

/-- The texts of the blocks that are enabled and non-empty (`len > 0`), in `BlockId`
order. -/
def shown_texts (sample : SamplePlugin) : List (List Nat) :=
  ((flagged_blocks sample).filter (fun p => p.1 && decide (p.2.len > 0))).map
    (fun p => cstr p.2.data)

/-- The store invariant of the length field: `len` is the length of the stored C
string. -/
def LenConsistent (sample : SamplePlugin) : Prop :=
  ∀ i : Fin BLOCK_COUNT, (sample.blocks i).len = (strlen (sample.blocks i).data : Int)

/-- Generic form of one loop iteration of `update_display`: when the flag of `p` holds,
append its text, preceded by the separator if the accumulator is non-empty. -/
def joinStep (sep : List Nat) (acc : List Nat) (p : Bool × List Nat) : List Nat :=
  if p.1 then (if acc.length > 0 then acc ++ sep else acc) ++ p.2 else acc

/-- The blocks in `BlockId` order as loop items: inclusion test and text. -/
def loop_items (sample : SamplePlugin) : List (Bool × List Nat) :=
  (flagged_blocks sample).map (fun p => (p.1 && decide (p.2.len > 0), cstr p.2.data))

/-! ## Reference model of `g_markup_escape_text` and `pango_parse_markup`

Modelled from the GLib and Pango documentation; neither routine is part of the plugin.
The model of `pango_parse_markup` covers character data, the five predefined entities,
numeric character references, and the Pango convenience elements, with `span` carrying
either no attribute or a single `color='#rrggbb'`.  It rejects what it does not cover
(comments, processing instructions, CDATA sections, other attributes), so a text the
model accepts is accepted by Pango. -/

/-- The digits `printf ("%x", n)` prints. -/
def hex_digits (n : Nat) : List Nat :=
  (Nat.toDigits 16 n).map Char.toNat

/-- The character reference `&#x..;` for the code point `u`. -/
def char_ref (u : Nat) : List Nat :=
  lit "&#x" ++ hex_digits u ++ lit ";"

/-- The ASCII control characters `g_markup_escape_text` writes as character references
(all but tab, newline and carriage return). -/
def escaped_control (c : Nat) : Bool :=
  (1 ≤ c && c ≤ 8) || (0xb ≤ c && c ≤ 0xc) || (0xe ≤ c && c ≤ 0x1f) || c == 0x7f

/-- The C1 control characters `g_markup_escape_text` writes as character references,
given by the byte that follows `0xC2` in their encoding. -/
def escaped_c1 (d : Nat) : Bool :=
  (0x80 ≤ d && d ≤ 0x84) || (0x86 ≤ d && d ≤ 0x9f)

/-- What `g_markup_escape_text` writes for one byte that does not start an escaped C1
control character: an entity for `&`, `<`, `>`, `'`, `"`, a character reference for an
ASCII control character, the byte itself otherwise. -/
def escape_byte (c : Nat) : List Nat :=
  if c = 38 then lit "&amp;"
  else if c = 60 then lit "&lt;"
  else if c = 62 then lit "&gt;"
  else if c = 39 then lit "&apos;"
  else if c = 34 then lit "&quot;"
  else if escaped_control c then char_ref c
  else [c]

/-- GLib's `g_markup_escape_text (t, -1)`: a scan from left to right in which the two
bytes of an escaped C1 control character become one character reference and every
other byte is written by `escape_byte`. -/
def g_markup_escape_text : List Nat → List Nat
  | [] => []
  | [c] => escape_byte c
  | c :: d :: rest =>
    if c = 0xC2 ∧ escaped_c1 d then char_ref d ++ g_markup_escape_text rest
    else escape_byte c ++ g_markup_escape_text (d :: rest)

/-- One byte of the UTF-8 well-formedness check.  `pending` lists, for the bytes still
missing from the current character, the range each must lie in; a first byte decides
what has to follow (shortest form only, no surrogates, nothing above U+10FFFF). -/
def utf8_step (pending : List (Nat × Nat)) (b : Nat) : Option (List (Nat × Nat)) :=
  match pending with
  | (lo, hi) :: rest => if lo ≤ b ∧ b ≤ hi then some rest else none
  | [] =>
    if b < 0x80 then some []
    else if b < 0xC2 then none
    else if b < 0xE0 then some [(0x80, 0xBF)]
    else if b = 0xE0 then some [(0xA0, 0xBF), (0x80, 0xBF)]
    else if b = 0xED then some [(0x80, 0x9F), (0x80, 0xBF)]
    else if b < 0xF0 then some [(0x80, 0xBF), (0x80, 0xBF)]
    else if b = 0xF0 then some [(0x90, 0xBF), (0x80, 0xBF), (0x80, 0xBF)]
    else if b < 0xF4 then some [(0x80, 0xBF), (0x80, 0xBF), (0x80, 0xBF)]
    else if b = 0xF4 then some [(0x80, 0x8F), (0x80, 0xBF), (0x80, 0xBF)]
    else none

/-- The UTF-8 check on a byte string, from a given state. -/
def utf8_run (pending : List (Nat × Nat)) : List Nat → Option (List (Nat × Nat))
  | [] => some pending
  | b :: rest => (utf8_step pending b).bind (fun p => utf8_run p rest)

/-- Well-formed UTF-8 (what `g_utf8_validate` accepts): the check ends between two
characters. -/
def utf8_valid (t : List Nat) : Bool :=
  decide (utf8_run [] t = some [])

/-- Every pending range is a range of continuation bytes. -/
def ContRanges (pending : List (Nat × Nat)) : Prop :=
  ∀ x ∈ pending, 0x80 ≤ x.1 ∧ x.2 ≤ 0xBF

/-- The value of a hexadecimal digit. -/
def hex_value (b : Nat) : Option Nat :=
  if 48 ≤ b ∧ b ≤ 57 then some (b - 48)
  else if 97 ≤ b ∧ b ≤ 102 then some (b - 87)
  else if 65 ≤ b ∧ b ≤ 70 then some (b - 55)
  else none

/-- The value of a decimal digit. -/
def dec_value (b : Nat) : Option Nat :=
  if 48 ≤ b ∧ b ≤ 57 then some (b - 48) else none

/-- The number written by a non-empty run of digits in the given base. -/
def digits_value (base : Nat) (digit : Nat → Option Nat) : List Nat → Option Nat
  | [] => none
  | d :: ds => (d :: ds).foldlM (fun acc b => (digit b).map (fun v => acc * base + v)) 0

/-- The code points a character reference may name (those XML 1.1 permits). -/
def permitted_char (u : Nat) : Bool :=
  (0 < u && u ≤ 0xD7FF) || (0xE000 ≤ u && u ≤ 0xFFFD) || (0x10000 ≤ u && u ≤ 0x10FFFF)

/-- The text a reference `&acc;` stands for, if it is one the markup parser knows. -/
def decode_ref (acc : List Nat) : Option (List Nat) :=
  if acc = lit "amp" then some [38]
  else if acc = lit "lt" then some [60]
  else if acc = lit "gt" then some [62]
  else if acc = lit "quot" then some [34]
  else if acc = lit "apos" then some [39]
  else
    match acc with
    | 35 :: 120 :: ds =>
      (digits_value 16 hex_value ds).bind
        (fun u => if permitted_char u then some (utf8Encode u) else none)
    | 35 :: ds =>
      (digits_value 10 dec_value ds).bind
        (fun u => if permitted_char u then some (utf8Encode u) else none)
    | _ => none

/-- The element names of Pango markup that take no attribute. -/
def pango_tags : List (List Nat) :=
  [lit "b", lit "big", lit "i", lit "s", lit "span", lit "sub", lit "sup", lit "small",
   lit "tt", lit "u"]

/-- The element a start tag `<body>` opens, if the model covers it: a Pango element
name, or `span color='#rrggbb'`. -/
def open_tag (body : List Nat) : Option (List Nat) :=
  if body ∈ pango_tags then some body
  else if body.take 13 = lit "span color='#" ∧ body.drop 19 = lit "'"
      ∧ ((body.drop 13).take 6).all (fun b => (hex_value b).isSome)
      ∧ ((body.drop 13).take 6).length = 6 then some (lit "span")
  else none

/-- Where the markup scanner is: in character data, inside a reference after `&`, or
inside a tag after `<`. -/
inductive Mode where
  | text
  | ref (acc : List Nat)
  | tag (acc : List Nat)
deriving DecidableEq, Repr

/-- The state of the markup scanner: mode, open elements (innermost first), the text
produced so far, and whether the previous byte of character data was a carriage
return. -/
structure Scan where
  mode : Mode
  stack : List (List Nat)
  out : List Nat
  cr : Bool
deriving DecidableEq, Repr

/-- The scanner on one byte.  In character data a carriage return, alone or followed by
a newline, is delivered as one newline, as the GLib markup parser does. -/
def scan_step (s : Scan) (b : Nat) : Option Scan :=
  match s.mode with
  | Mode.text =>
    if b = 60 then some { s with mode := Mode.tag [], cr := false }
    else if b = 38 then some { s with mode := Mode.ref [], cr := false }
    else if b = 13 then some { s with out := s.out ++ [10], cr := true }
    else if b = 10 ∧ s.cr = true then some { s with cr := false }
    else some { s with out := s.out ++ [b], cr := false }
  | Mode.ref acc =>
    if b = 59 then
      (decode_ref acc).map (fun t => { s with mode := Mode.text, out := s.out ++ t })
    else some { s with mode := Mode.ref (acc ++ [b]) }
  | Mode.tag acc =>
    if b = 62 then
      match acc with
      | 47 :: name =>
        match s.stack with
        | top :: below =>
          if top = name then some { s with mode := Mode.text, stack := below } else none
        | [] => none
      | _ =>
        if acc.getLast? = some 47 then
          (open_tag acc.dropLast).map (fun _ => { s with mode := Mode.text })
        else
          (open_tag acc).map (fun name => { s with mode := Mode.text, stack := name :: s.stack })
    else some { s with mode := Mode.tag (acc ++ [b]) }

/-- The scanner on a byte string. -/
def scan (s : Scan) : List Nat → Option Scan
  | [] => some s
  | b :: rest => (scan_step s b).bind (fun s2 => scan s2 rest)

/-- The plain text `pango_parse_markup` extracts from `t`, or `none` when it reports an
error: `t` must be UTF-8 and every tag and reference must be closed at the end. -/
def pango_text (t : List Nat) : Option (List Nat) :=
  if utf8_valid t then
    match scan { mode := Mode.text, stack := [], out := [], cr := false } t with
    | some s => if s.mode = Mode.text ∧ s.stack = [] then some s.out else none
    | none => none
  else none

/-- The reference model of the two library routines. -/
def glib : MarkupApi :=
  { pango_parse_markup := fun t => (pango_text t).isSome
    g_markup_escape_text := g_markup_escape_text }

/-! ## Lifecycle: `start_threads`, `sample_new` -/

/-- The function `start_threads`: every block is set empty, then a worker is created
for each enabled producer whose prerequisite is configured.  `g_thread_new` is
represented by the handle it returns. -/
def start_threads (sample : SamplePlugin) : SamplePlugin :=
  let s0 : SamplePlugin :=
    { sample with blocks := fun i => { len := 0, data := (sample.blocks i).data.set 0 0 } }
  let s1 : SamplePlugin :=
    if s0.show_date then
      { s0 with date_thread := { running := true, thread := some Worker.date } }
    else s0
  let s2 : SamplePlugin :=
    if s1.show_memory then
      { s1 with memory_thread := { running := true, thread := some Worker.memory } }
    else s1
  let s3 : SamplePlugin :=
    if s2.show_weather && s2.weather_location.isSome then
      { s2 with weather_thread := { running := true, thread := some Worker.weather } }
    else s2
  let s4 : SamplePlugin :=
    if s3.show_exchange && s3.exchange_api_key.isSome then
      { s3 with exchange_thread := { running := true, thread := some Worker.exchange } }
    else s3
  if s4.show_battery then
    { s4 with battery_thread := { running := true, thread := some Worker.battery } }
  else s4

/-- The settings `sample_read` fills in. -/
structure Settings where
  weather_location : Option (List Nat)
  exchange_api_key : Option (List Nat)
  update_interval : Int
  show_weather : Bool
  show_exchange : Bool
  show_battery : Bool
  show_memory : Bool
  show_date : Bool

/-- The defaults `sample_read` applies when no configuration file can be read. -/
def default_settings : Settings :=
  { weather_location := none, exchange_api_key := none, update_interval := 60,
    show_weather := true, show_exchange := true, show_battery := true,
    show_memory := true, show_date := true }

/-- The function `sample_new` on the settings `sample_read` found: a zero-filled
structure (`g_slice_new0`), the settings, the label showing `Loading...`, then
`start_threads`. -/
def sample_new (cfg : Settings) : SamplePlugin :=
  start_threads
    { label := some (LabelContent.text (lit "Loading..."))
      blocks := fun _ => { len := 0, data := List.replicate MAX_BLOCK_SIZE 0 }
      date_thread := { thread := none, running := false }
      memory_thread := { thread := none, running := false }
      weather_thread := { thread := none, running := false }
      exchange_thread := { thread := none, running := false }
      battery_thread := { thread := none, running := false }
      weather_location := cfg.weather_location
      exchange_api_key := cfg.exchange_api_key
      update_interval := cfg.update_interval
      show_weather := cfg.show_weather
      show_exchange := cfg.show_exchange
      show_battery := cfg.show_battery
      show_memory := cfg.show_memory
      show_date := cfg.show_date
      idle_pending := 0 }

/-- A block array holding the C string `t` (shorter than the array), zero-filled behind
it. -/
def block_with (t : List Nat) : BlockData :=
  { len := (t.length : Int), data := t ++ List.replicate (MAX_BLOCK_SIZE - t.length) 0 }

/-- The example of the specification: Date enabled and non-empty, Weather enabled and
empty, Battery disabled and non-empty (Exchange and Memory enabled and empty). -/
def example_sample : SamplePlugin :=
  { sample_new default_settings with
    show_battery := false
    blocks := fun i =>
      if i.val = BLOCK_DATE then block_with (lit "Sat Oct 31 14:47")
      else if i.val = BLOCK_BATTERY then block_with (lit "87%")
      else block_with [] }

/-! ## Producers: classification and formatting

The formatting of a `double` by `printf` is not modelled: the formatted number is a
parameter of the text builders. -/

/-- A `gdouble` as far as comparison with an integer constant is concerned: a finite
double is the rational number it denotes. -/
inductive GDouble where
  | nan
  | neg_inf
  | finite (q : ℚ)
  | pos_inf

/-- The C comparison `x < k` of a double with an integer constant. -/
def GDouble.lt (x : GDouble) (k : Int) : Bool :=
  match x with
  | GDouble.nan => false
  | GDouble.neg_inf => true
  | GDouble.finite q => decide (q < (k : ℚ))
  | GDouble.pos_inf => false

/-- The C comparison `x >= k` of a double with an integer constant. -/
def GDouble.ge (x : GDouble) (k : Int) : Bool :=
  match x with
  | GDouble.nan => false
  | GDouble.neg_inf => false
  | GDouble.finite q => decide ((k : ℚ) ≤ q)
  | GDouble.pos_inf => true

/-- The icon and colour `weather_thread_func` picks for a temperature (its `if` chain;
the icon literals are those of the source file, character by character). -/
def weather_icon_color (temperature : GDouble) : List Nat × List Nat :=
  if temperature.lt 0 then (lit "\u201A\u00F9\u00D1\u00D4\u220F\u00E8", lit "#1e90ff")
  else if temperature.lt 10 then (lit "\uF8FF\u00FC\u2022\u2202", lit "#00bfff")
  else if temperature.lt 18 then (lit "\uF8FF\u00FC\u00E5\u00F8", lit "#32cd32")
  else if temperature.lt 22 then (lit "\uF8FF\u00FC\u00F2\u00E4", lit "#ffd700")
  else if temperature.lt 30 then (lit "\uF8FF\u00FC\u00E5\u00B0\u00D4\u220F\u00E8", lit "#ffa500")
  else (lit "\uF8FF\u00FC\u00EE\u2022", lit "#ff4500")

/-- The text `weather_thread_func` builds with
`g_strdup_printf ("<span color='%s'>%s %.1f..C</span>", color, icon, temperature)`;
`shown` is what `%.1f` prints for the temperature. -/
def weather_text (temperature : GDouble) (shown : List Nat) : List Nat :=
  lit "<span color='" ++ (weather_icon_color temperature).2 ++ lit "'>"
    ++ (weather_icon_color temperature).1 ++ lit " " ++ shown ++ lit "\u00AC\u221EC</span>"

/-- The icon and colour `battery_thread_func` picks for a capacity (its `if` chain). -/
def battery_icon_color (capacity : Int) : List Nat × List Nat :=
  if capacity < 10 then (lit "\uF8FF\u00FC\u00EE\u00E3", lit "#ff0000")
  else if capacity < 25 then (lit "\uF8FF\u00FC\u00EE\u00E3", lit "#eb9634")
  else if capacity < 50 then (lit "\uF8FF\u00FC\u00EE\u00E3", lit "#ebd334")
  else if capacity < 75 then (lit "\uF8FF\u00FC\u00EE\u00E3", lit "#c6eb34")
  else (lit "\uF8FF\u00FC\u00EE\u00E3", lit "#00ff00")

/-- The six icon and colour pairs of the weather classifier, coldest first. -/
def weather_pairs : List (List Nat × List Nat) :=
  [(lit "\u201A\u00F9\u00D1\u00D4\u220F\u00E8", lit "#1e90ff"), (lit "\uF8FF\u00FC\u2022\u2202", lit "#00bfff"), (lit "\uF8FF\u00FC\u00E5\u00F8", lit "#32cd32"),
   (lit "\uF8FF\u00FC\u00F2\u00E4", lit "#ffd700"), (lit "\uF8FF\u00FC\u00E5\u00B0\u00D4\u220F\u00E8", lit "#ffa500"), (lit "\uF8FF\u00FC\u00EE\u2022", lit "#ff4500")]

/-- The five colours of the battery classifier, lowest capacity first. -/
def battery_colors : List (List Nat) :=
  [lit "#ff0000", lit "#eb9634", lit "#ebd334", lit "#c6eb34", lit "#00ff00"]

/-- The icon `battery_thread_func` uses in every branch. -/
def battery_icon : List Nat :=
  lit "\uF8FF\u00FC\u00EE\u00E3"

/-! ### Memory -/

/-- Addition of two `gulong` values (64-bit unsigned). -/
def gulong_add (a b : Nat) : Nat :=
  (a + b) % 2 ^ 64

/-- Subtraction of two `gulong` values (64-bit unsigned). -/
def gulong_sub (a b : Nat) : Nat :=
  (a + 2 ^ 64 - b % 2 ^ 64) % 2 ^ 64

/-- A line of `/proc/meminfo` as the `sscanf` calls of `get_memory_info` see it: one of
the five counters with the value `%lu` reads, or a line none of the formats matches. -/
inductive MeminfoLine where
  | mem_total (v : Nat)
  | mem_free (v : Nat)
  | cached (v : Nat)
  | buffers (v : Nat)
  | s_reclaimable (v : Nat)
  | other
deriving DecidableEq, Repr

/-- The five `gulong` locals of `get_memory_info`. -/
structure MemCounters where
  mem_total : Nat
  mem_free : Nat
  cached : Nat
  buffers : Nat
  mem_reclaimable : Nat
deriving DecidableEq, Repr

/-- One iteration of the `while (fgets ..)` loop of `get_memory_info`. -/
def read_meminfo_line (c : MemCounters) : MeminfoLine → MemCounters
  | MeminfoLine.mem_total v => { c with mem_total := v }
  | MeminfoLine.mem_free v => { c with mem_free := v }
  | MeminfoLine.cached v => { c with cached := v }
  | MeminfoLine.buffers v => { c with buffers := v }
  | MeminfoLine.s_reclaimable v => { c with mem_reclaimable := v }
  | MeminfoLine.other => c

/-- The counters after the loop over the file, all starting from 0. -/
def read_meminfo (lines : List MeminfoLine) : MemCounters :=
  lines.foldl read_meminfo_line
    { mem_total := 0, mem_free := 0, cached := 0, buffers := 0, mem_reclaimable := 0 }

/-- The local `mem_used` of `get_memory_info`:
`mem_total - mem_free - mem_cached_all` with `mem_cached_all = cached + mem_reclaimable`,
in `gulong` arithmetic. -/
def mem_used (c : MemCounters) : Nat :=
  let mem_cached_all := gulong_add c.cached c.mem_reclaimable
  gulong_sub (gulong_sub c.mem_total c.mem_free) mem_cached_all

/-- The text `get_memory_info` builds with
`g_strdup_printf ("<span color='#186da5'>.. %.1fGB</span>", mem_used_gb)`; `shown` is
what `%.1f` prints. -/
def memory_text (shown : List Nat) : List Nat :=
  lit "<span color='#186da5'>\uF8FF\u00FC\u00F3\u00D1\u00D4\u220F\u00E8 " ++ shown ++ lit "GB</span>"

/-- The function `get_memory_info`: the text it returns in `*memory_text`, `none` for
NULL.  `meminfo` is `none` when `/proc/meminfo` cannot be opened; `shown u` is what
`%.1f` prints for `u / 1024.0 / 1024.0`. -/
def get_memory_info (shown : Nat → List Nat) (meminfo : Option (List MeminfoLine)) :
    Option (List Nat) :=
  match meminfo with
  | none => none
  | some lines =>
    let c := read_meminfo lines
    if c.mem_total > 0 then some (memory_text (shown (mem_used c))) else none

/-- What `printf ("%.1f")` prints for the double nearest to `1e300`. -/
def shown_1e300 : List Nat :=
  lit "1000000000000000052504760255204420248704468581108159154915854115511802457988908195786371375080447864043704443832883878176942523235360430575644792184786706982848387200926575803737830233794788090059368953234970799945081119038967640880074652742780142494579258788820056842838115669472196386865459400540160.0"

/-- The text the weather worker hands to `update_block` when the service reports the
temperature `1e300`. -/
def hot_weather_text : List Nat :=
  weather_text (GDouble.finite 1000000000000000052504760255204420248704468581108159154915854115511802457988908195786371375080447864043704443832883878176942523235360430575644792184786706982848387200926575803737830233794788090059368953234970799945081119038967640880074652742780142494579258788820056842838115669472196386865459400540160) shown_1e300

/-! ## Sequences of writes -/

/-- The plugin after a sequence of `update_block` calls, each given by its block id and
its text. -/
def run_writes (api : MarkupApi) (sample : SamplePlugin)
    (writes : List (Nat × Option (List Nat))) : SamplePlugin :=
  writes.foldl (fun s w => update_block api s w.1 w.2) sample

/-- The store invariant: every block array has `MAX_BLOCK_SIZE` bytes and `len` is the
length of the C string it holds. -/
def StoreInv (sample : SamplePlugin) : Prop :=
  ∀ i : Fin BLOCK_COUNT, (sample.blocks i).data.length = MAX_BLOCK_SIZE ∧
    (sample.blocks i).len = (strlen (sample.blocks i).data : Int)

/-! ## Lifecycle: `stop_threads` and the settings commit -/

/-- What `stop_threads` does to the workers, in the order it does it: clearing a
running flag, and `g_thread_join` on a handle. -/
inductive StopEvent where
  | clear_running (w : Worker)
  | join (handle : Worker)
deriving DecidableEq, Repr

/-- One `if (t.thread) { g_thread_join (t.thread); t.thread = NULL; }` of
`stop_threads`: the thread record afterwards and the join performed, if any. -/
def join_thread (t : StatusThread) : StatusThread × List StopEvent :=
  match t.thread with
  | some handle => ({ t with thread := none }, [StopEvent.join handle])
  | none => (t, [])

/-- The function `stop_threads` with the record of what it did: the five running flags
are cleared, then each worker with a handle is joined and its handle set to NULL.
`g_thread_join` is taken to return. -/
def stop_threads_run (sample : SamplePlugin) : SamplePlugin × List StopEvent :=
  let s1 : SamplePlugin :=
    { sample with
      date_thread := { sample.date_thread with running := false }
      memory_thread := { sample.memory_thread with running := false }
      weather_thread := { sample.weather_thread with running := false }
      exchange_thread := { sample.exchange_thread with running := false }
      battery_thread := { sample.battery_thread with running := false } }
  let cleared : List StopEvent :=
    [StopEvent.clear_running Worker.date, StopEvent.clear_running Worker.memory,
     StopEvent.clear_running Worker.weather, StopEvent.clear_running Worker.exchange,
     StopEvent.clear_running Worker.battery]
  let d := join_thread s1.date_thread
  let m := join_thread s1.memory_thread
  let w := join_thread s1.weather_thread
  let e := join_thread s1.exchange_thread
  let b := join_thread s1.battery_thread
  ({ s1 with
      date_thread := d.1, memory_thread := m.1, weather_thread := w.1,
      exchange_thread := e.1, battery_thread := b.1 },
    cleared ++ d.2 ++ m.2 ++ w.2 ++ e.2 ++ b.2)

/-- The function `stop_threads`: the plugin after the call. -/
def stop_threads (sample : SamplePlugin) : SamplePlugin :=
  (stop_threads_run sample).1

/-- The handles `stop_threads` finds on entry, in the order it looks at them. -/
def worker_handles (sample : SamplePlugin) : List (Option Worker) :=
  [sample.date_thread.thread, sample.memory_thread.thread, sample.weather_thread.thread,
   sample.exchange_thread.thread, sample.battery_thread.thread]

/-- The running flags of the five workers, in the same order. -/
def running_flags (sample : SamplePlugin) : List Bool :=
  [sample.date_thread.running, sample.memory_thread.running, sample.weather_thread.running,
   sample.exchange_thread.running, sample.battery_thread.running]

/-- The settings held in the plugin structure. -/
def settings_of (sample : SamplePlugin) : Settings :=
  { weather_location := sample.weather_location
    exchange_api_key := sample.exchange_api_key
    update_interval := sample.update_interval
    show_weather := sample.show_weather
    show_exchange := sample.show_exchange
    show_battery := sample.show_battery
    show_memory := sample.show_memory
    show_date := sample.show_date }

/-- The state `sample_new` hands to `start_threads`: a zero-filled structure with the
settings read and the label created. -/
def sample_init (cfg : Settings) : SamplePlugin :=
  { label := some (LabelContent.text (lit "Loading..."))
    blocks := fun _ => { len := 0, data := List.replicate MAX_BLOCK_SIZE 0 }
    date_thread := { thread := none, running := false }
    memory_thread := { thread := none, running := false }
    weather_thread := { thread := none, running := false }
    exchange_thread := { thread := none, running := false }
    battery_thread := { thread := none, running := false }
    weather_location := cfg.weather_location
    exchange_api_key := cfg.exchange_api_key
    update_interval := cfg.update_interval
    show_weather := cfg.show_weather
    show_exchange := cfg.show_exchange
    show_battery := cfg.show_battery
    show_memory := cfg.show_memory
    show_date := cfg.show_date
    idle_pending := 0 }

/-- The constant `GTK_RESPONSE_HELP` of GTK. -/
def GTK_RESPONSE_HELP : Int := -11

/-- What the widgets of the settings dialog hold when the response arrives: the text
of the two entries and the state of the five check buttons. -/
structure DialogValues where
  weather_location_entry : List Nat
  exchange_api_key_entry : List Nat
  show_weather_check : Bool
  show_exchange_check : Bool
  show_battery_check : Bool
  show_memory_check : Bool
  show_date_check : Bool

/-- The function `sample_configure_response` of `sample-dialogs.c`: the plugin after
the call and the settings handed to `sample_save`, if it was called.  With the help
response only a browser is launched; with any other response the two strings and the
five flags are replaced by what the dialog holds, and the settings are saved. -/
def sample_configure_response (dialog : DialogValues) (response : Int)
    (sample : SamplePlugin) : SamplePlugin × Option Settings :=
  if response = GTK_RESPONSE_HELP then (sample, none)
  else
    let s : SamplePlugin :=
      { sample with
        weather_location := some (cstr dialog.weather_location_entry)
        exchange_api_key := some (cstr dialog.exchange_api_key_entry)
        show_weather := dialog.show_weather_check
        show_exchange := dialog.show_exchange_check
        show_battery := dialog.show_battery_check
        show_memory := dialog.show_memory_check
        show_date := dialog.show_date_check }
    (s, some (settings_of s))

/-! ## Producers: what one poll does

The operating system, the HTTP client and the JSON parser are parameters of the poll
functions: what `/proc/meminfo` and the battery files hold, what an HTTP request
returns (`none` for a failed transfer or an empty response), and how a response body
parses. -/

/-- What `printf ("%d", n)` prints. -/
def fmt_d (n : Int) : List Nat :=
  if n < 0 then 45 :: (Nat.toDigits 10 n.natAbs).map Char.toNat
  else (Nat.toDigits 10 n.natAbs).map Char.toNat

/-- What `printf ("%02d", n)` prints: at least two characters, padded with a zero. -/
def fmt_02d (n : Int) : List Nat :=
  if 0 ≤ n ∧ n < 10 then 48 :: fmt_d n else fmt_d n

/-- The fields of `struct tm` that `date_thread_func` reads. -/
structure Tm where
  tm_sec : Int
  tm_min : Int
  tm_hour : Int
  tm_mday : Int
  tm_mon : Int
  tm_wday : Int

/-- The array of weekday names in `date_thread_func`. -/
def weekday_names : List (List Nat) :=
  [lit "Sun", lit "Mon", lit "Tue", lit "Wed", lit "Thu", lit "Fri", lit "Sat"]

/-- The array of month names in `date_thread_func`. -/
def month_names : List (List Nat) :=
  [lit "Jan", lit "Feb", lit "Mar", lit "Apr", lit "May", lit "Jun", lit "Jul", lit "Aug",
   lit "Sep", lit "Oct", lit "Nov", lit "Dec"]

/-- The day or night icon of `date_thread_func`, keyed on the hour. -/
def day_night_icon (tm_hour : Int) : List Nat :=
  if tm_hour ≥ 8 ∧ tm_hour < 21 then
    lit "<span color='#edd238'>\u201A\u00F2\u00C4\u00D4\u220F\u00E8</span>"
  else lit "<span color='#ecede8'>\uF8FF\u00FC\u00E5\u00F4</span>"

/-- The text `date_thread_func` builds with `g_strdup_printf` from the local time. -/
def date_text (tm : Tm) : List Nat :=
  lit "<span color='#07d7e8'>\uF8FF\u00FC\u00EC\u00D6</span> <span color='#10bbbb'>"
    ++ weekday_names.getD tm.tm_wday.toNat [] ++ lit " "
    ++ month_names.getD tm.tm_mon.toNat [] ++ lit " " ++ fmt_d tm.tm_mday ++ lit " "
    ++ day_night_icon tm.tm_hour ++ lit " " ++ fmt_02d tm.tm_hour ++ lit ":"
    ++ fmt_02d tm.tm_min ++ lit "</span>"

/-- One poll of `date_thread_func`: the date text goes into the Date block. -/
def date_poll (api : MarkupApi) (tm : Tm) (sample : SamplePlugin) : SamplePlugin :=
  update_block api sample BLOCK_DATE (some (date_text tm))

/-- One poll of `memory_thread_func`: the block is updated if `get_memory_info`
returned a text. -/
def memory_poll (api : MarkupApi) (shown : Nat → List Nat)
    (meminfo : Option (List MeminfoLine)) (sample : SamplePlugin) : SamplePlugin :=
  match get_memory_info shown meminfo with
  | some text => update_block api sample BLOCK_MEMORY (some text)
  | none => sample

/-- The characters `isspace` and `g_ascii_isspace` accept. -/
def is_space (b : Nat) : Bool :=
  b == 32 || (9 ≤ b && b ≤ 13)

/-- The number written by the leading decimal digits of a string. -/
def leading_digits (acc : Nat) : List Nat → Nat
  | [] => acc
  | b :: rest => if 48 ≤ b ∧ b ≤ 57 then leading_digits (acc * 10 + (b - 48)) rest else acc

/-- The C library's `atoi`, for values that fit an `int`: white space, an optional
sign, then digits. -/
def atoi (s : List Nat) : Int :=
  match s.dropWhile is_space with
  | 45 :: rest => - (leading_digits 0 rest : Int)
  | 43 :: rest => (leading_digits 0 rest : Int)
  | t => (leading_digits 0 t : Int)

/-- The text `battery_thread_func` builds: colour and icon by capacity, the capacity,
and the charging mark when the status is `Charging`. -/
def battery_text (capacity_str : List Nat) (status_str : Option (List Nat)) : List Nat :=
  let capacity := atoi (cstr capacity_str)
  let charging_icon : List Nat :=
    match status_str with
    | some s =>
      if cstr s = lit "Charging" then lit " <span color='#cccccc'>\u201A\u00F6\u00B0</span>"
      else []
    | none => []
  lit "<span color='" ++ (battery_icon_color capacity).2 ++ lit "'>"
    ++ (battery_icon_color capacity).1 ++ lit " " ++ fmt_d capacity ++ lit "%</span>"
    ++ charging_icon

/-- One poll of `battery_thread_func`.  `capacity_str` and `status_str` are what
`get_battery_info` returns: the first line of each file, `none` for NULL when the file
cannot be read. -/
def battery_poll (api : MarkupApi) (capacity_str status_str : Option (List Nat))
    (sample : SamplePlugin) : SamplePlugin :=
  match capacity_str with
  | some c => update_block api sample BLOCK_BATTERY (some (battery_text c status_str))
  | none => sample

/-- GLib's `g_strstrip`: white space removed at both ends. -/
def g_strstrip (s : List Nat) : List Nat :=
  ((s.dropWhile is_space).reverse.dropWhile is_space).reverse

/-- The function `get_weather_data`: NULL unless the location has a comma; otherwise
the response to the request built from the two stripped parts, NULL when the transfer
fails. -/
def get_weather_data (http : List Nat → Option (List Nat)) (location : Option (List Nat)) :
    Option (List Nat) :=
  match location with
  | none => none
  | some p =>
    let s := cstr p
    if 44 ∈ s then
      http (lit "https://api.open-meteo.com/v1/forecast?latitude="
        ++ g_strstrip (s.takeWhile (fun b => b != 44)) ++ lit "&longitude="
        ++ g_strstrip ((s.dropWhile (fun b => b != 44)).drop 1)
        ++ lit "&current_weather=true")
    else none

/-- The function `get_exchange_data`: NULL without a key, otherwise the response to the
request for the latest rates, NULL when the transfer fails. -/
def get_exchange_data (http : List Nat → Option (List Nat)) (api_key : Option (List Nat)) :
    Option (List Nat) :=
  match api_key with
  | none => none
  | some p => http (lit "https://openexchangerates.org/api/latest.json?app_id=" ++ cstr p)

/-- How `weather_thread_func` sees a response body after `json_parser_load_from_data`:
not JSON, JSON without an object member `current_weather`, or the temperature
`json_object_get_double_member` returns. -/
inductive WeatherJson where
  | parse_error
  | no_current_weather
  | current_weather (temperature : GDouble)

/-- One poll of `weather_thread_func`. `shown t` is what `%.1f` prints for `t`. -/
def weather_poll (api : MarkupApi) (shown : GDouble → List Nat)
    (http : List Nat → Option (List Nat)) (json : List Nat → WeatherJson)
    (sample : SamplePlugin) : SamplePlugin :=
  match sample.weather_location with
  | none => sample
  | some location =>
    match get_weather_data http (some location) with
    | none => sample
    | some weather_json =>
      match json weather_json with
      | WeatherJson.current_weather temperature =>
        update_block api sample BLOCK_WEATHER
          (some (weather_text temperature (shown temperature)))
      | _ => sample

/-- How `exchange_thread_func` sees a response body: not JSON, JSON without an object
member `rates`, or the rates table, given by the double `json_object_get_double_member`
returns for each member it has. -/
inductive ExchangeJson where
  | parse_error
  | no_rates
  | rates (table : List Nat → Option GDouble)

/-- The fragment `exchange_thread_func` appends for TRY; `shown` is what `%.2f`
prints for the rate. -/
def try_fragment (shown : List Nat) : List Nat :=
  lit "<span color='#07d7e8'>TRY</span> <span color='#10bbbb'>" ++ shown ++ lit "</span>"

/-- The fragment `exchange_thread_func` appends for RUB. -/
def rub_fragment (shown : List Nat) : List Nat :=
  lit "<span color='#07d7e8'>RUB</span> <span color='#10bbbb'>" ++ shown ++ lit "</span>"

/-- The string `exchange_text` that `exchange_thread_func` builds from a rates table:
the TRY fragment if the table has TRY, then the RUB fragment if it has RUB, preceded by
a space when TRY was written. -/
def exchange_text (shown : GDouble → List Nat) (table : List Nat → Option GDouble) :
    List Nat :=
  let has_try := (table (lit "TRY")).isSome
  let t1 : List Nat :=
    match table (lit "TRY") with
    | some try_rate => try_fragment (shown try_rate)
    | none => []
  match table (lit "RUB") with
  | some rub_rate => (if has_try then t1 ++ lit " " else t1) ++ rub_fragment (shown rub_rate)
  | none => t1

/-- One poll of `exchange_thread_func`. `shown r` is what `%.2f` prints for `r`. -/
def exchange_poll (api : MarkupApi) (shown : GDouble → List Nat)
    (http : List Nat → Option (List Nat)) (json : List Nat → ExchangeJson)
    (sample : SamplePlugin) : SamplePlugin :=
  match sample.exchange_api_key with
  | none => sample
  | some api_key =>
    match get_exchange_data http (some api_key) with
    | none => sample
    | some exchange_json =>
      match json exchange_json with
      | ExchangeJson.rates table =>
        if (exchange_text shown table).length > 0 then
          update_block api sample BLOCK_EXCHANGE_RATE (some (exchange_text shown table))
        else sample
      | _ => sample

/-! ## Worker threads: the polling loop

Every thread function has the shape
`while (running) { poll; for (i = 0; i < sleep_time && running; i++) g_usleep (1000000); }`.
The running flag is written by another thread, so the loop is modelled on the sequence
of values it reads from the flag, one per test. -/

/-- Where a worker is in its thread function: about to test `while (running)`, about
to test `running` in the sleep loop with counter `i` (below `sleep_time`), or
returned. -/
inductive WorkerPc where
  | at_while
  | in_sleep (i : Nat) (sleep_time : Int)
  | returned
deriving DecidableEq, Repr

/-- What a worker does between two tests of its flag: the `k`-th poll (the loop body up
to the sleep loop), or one `g_usleep (1000000)`. -/
inductive WorkerEvent where
  | poll (k : Nat)
  | tick
deriving DecidableEq, Repr

/-- A worker thread: where it is, how many polls it has made, and what it has done so
far, oldest first. -/
structure WorkerState where
  pc : WorkerPc
  polls : Nat
  log : List WorkerEvent
deriving DecidableEq, Repr

/-- The test `i < sleep_time` of the sleep loop: if it holds the flag is read next,
otherwise the loop is left for the `while` test. -/
def enter_sleep (i : Nat) (sleep_time : Int) : WorkerPc :=
  if (i : Int) < sleep_time then WorkerPc.in_sleep i sleep_time else WorkerPc.at_while

/-- The worker up to its next test of the flag, given the value `running` it reads
now.  `sleep_time k` is the bound of the sleep loop after the `k`-th poll. -/
def worker_step (sleep_time : Nat → Int) (st : WorkerState) (running : Bool) : WorkerState :=
  match st.pc with
  | WorkerPc.at_while =>
    if running then
      { pc := enter_sleep 0 (sleep_time st.polls), polls := st.polls + 1,
        log := st.log ++ [WorkerEvent.poll st.polls] }
    else { st with pc := WorkerPc.returned }
  | WorkerPc.in_sleep i n =>
    if running then { st with pc := enter_sleep (i + 1) n, log := st.log ++ [WorkerEvent.tick] }
    else { st with pc := WorkerPc.at_while }
  | WorkerPc.returned => st

/-- A thread function run on the values `obs` it reads from its flag, in order. -/
def worker_run (sleep_time : Nat → Int) (obs : List Bool) : WorkerState :=
  obs.foldl (worker_step sleep_time) { pc := WorkerPc.at_while, polls := 0, log := [] }

/-- The function `date_thread_func`: the sleep after a poll is `60 - tm_sec` of the
local time of that poll. -/
def date_thread_func (tm_sec : Nat → Int) (obs : List Bool) : WorkerState :=
  worker_run (fun k => 60 - tm_sec k) obs

/-- The function `memory_thread_func`: five ticks between polls. -/
def memory_thread_func (obs : List Bool) : WorkerState :=
  worker_run (fun _ => 5) obs

/-- The function `weather_thread_func`: 1800 ticks between polls. -/
def weather_thread_func (obs : List Bool) : WorkerState :=
  worker_run (fun _ => 1800) obs

/-- The function `exchange_thread_func`: 1800 ticks between polls. -/
def exchange_thread_func (obs : List Bool) : WorkerState :=
  worker_run (fun _ => 1800) obs

/-- The function `battery_thread_func`: ten ticks between polls. -/
def battery_thread_func (obs : List Bool) : WorkerState :=
  worker_run (fun _ => 10) obs

/-- The effect of a worker on the plugin: its polls applied in order, `poll k` being
what the `k`-th poll does. -/
def run_polls (poll : Nat → SamplePlugin → SamplePlugin) (log : List WorkerEvent)
    (sample : SamplePlugin) : SamplePlugin :=
  log.foldl (fun s e =>
    match e with
    | WorkerEvent.poll k => poll k s
    | WorkerEvent.tick => s) sample

/-- The number of ticks a worker has made since its last poll. -/
def ticks_since_poll (log : List WorkerEvent) : Nat :=
  (log.reverse.takeWhile (fun e => e == WorkerEvent.tick)).length

/-- The number of polls in a log. -/
def poll_count (log : List WorkerEvent) : Nat :=
  (log.filter (fun e => e != WorkerEvent.tick)).length

/-- While a worker sleeps its counter is the number of ticks since the last poll, and
that number never exceeds the bound `N` of the sleep times. -/
def SleepInv (N : Nat) (st : WorkerState) : Prop :=
  ticks_since_poll st.log ≤ N ∧
  ∀ i n, st.pc = WorkerPc.in_sleep i n →
    i = ticks_since_poll st.log ∧ (i : Int) < n ∧ n ≤ (N : Int)

/-! ## Locking: what the two store operations do, in order -/

/-- The calls `update_block` and `update_display` make, as far as the mutex is
concerned: locking and unlocking, markup validation, escaping, a logged warning, the
assignments into a block, the read of a block, the queueing of a render, and the two
calls on the label. -/
inductive LockEvent where
  | lock
  | unlock
  | validate (t : List Nat)
  | escape (t : List Nat)
  | warning
  | store (block_id : Nat)
  | read (i : Nat)
  | idle_add
  | set_markup (t : List Nat)
  | set_text (t : List Nat)
deriving DecidableEq, Repr

/-- The calls of `update_block` in source order: nothing when the guard returns;
otherwise `pthread_mutex_lock`, `pango_parse_markup`, for an invalid text
`g_markup_escape_text` and `g_warning`, the assignments into the block,
`pthread_mutex_unlock`, `g_idle_add`. -/
def update_block_trace (api : MarkupApi) (block_id : Nat) (text : Option (List Nat)) :
    List LockEvent :=
  match text with
  | none => []
  | some p =>
    if block_id < BLOCK_COUNT then
      [LockEvent.lock, LockEvent.validate (cstr p)]
        ++ (if api.pango_parse_markup (cstr p) then []
            else [LockEvent.escape (cstr p), LockEvent.warning])
        ++ [LockEvent.store block_id, LockEvent.unlock, LockEvent.idle_add]
    else []

/-- The calls of `update_display` in source order: nothing without a label; otherwise
`pthread_mutex_lock`, the loop over the blocks, `pthread_mutex_unlock`, and then the
validation of the composed string and the call on the label. -/
def update_display_trace (api : MarkupApi) (sample : SamplePlugin) : List LockEvent :=
  match sample.label with
  | none => []
  | some _ =>
    [LockEvent.lock] ++ (List.range BLOCK_COUNT).map LockEvent.read ++ [LockEvent.unlock]
      ++ (if (display_text sample).length > 0 then
            if api.pango_parse_markup (display_text sample) then
              [LockEvent.validate (display_text sample),
               LockEvent.set_markup (display_text sample)]
            else
              [LockEvent.validate (display_text sample), LockEvent.warning,
               LockEvent.set_text (lit "Status Error")]
          else [LockEvent.set_text (lit "Loading...")])

/-- The events of a trace that happen while the mutex is held, `held` telling whether
it is held at the start. -/
def while_locked (held : Bool) : List LockEvent → List LockEvent
  | [] => []
  | LockEvent.lock :: rest => while_locked true rest
  | LockEvent.unlock :: rest => while_locked false rest
  | e :: rest => if held then e :: while_locked held rest else while_locked held rest

/-- Whether the mutex is held after a trace. -/
def held_after (held : Bool) : List LockEvent → Bool
  | [] => held
  | LockEvent.lock :: rest => held_after true rest
  | LockEvent.unlock :: rest => held_after false rest
  | _ :: rest => held_after held rest

/-- A trace uses the mutex properly: it locks at most once, unlocks as often as it
locks, and does not hold the mutex at its end. -/
def LockedOnce (trace : List LockEvent) : Prop :=
  trace.count LockEvent.lock ≤ 1 ∧
  trace.count LockEvent.unlock = trace.count LockEvent.lock ∧
  held_after false trace = false

/-! ## HTTP responses: `write_response_callback` -/

/-- GLib's `g_realloc (mem, n)` on a buffer (`none` for NULL): `n` bytes that start
with the old content. -/
def g_realloc (mem : Option (List Nat)) (n : Nat) : List Nat :=
  ((mem.getD []) ++ List.replicate n 0).take n

/-- The function `write_response_callback`: the buffer `*output` after the call and the
value returned.  `contents` holds the `size * nmemb` bytes delivered. -/
def write_response_callback (contents : List Nat) (size nmemb : Nat)
    (output : Option (List Nat)) : Option (List Nat) × Nat :=
  let total_size := size * nmemb
  let temp := g_realloc output (total_size + 1)
  (some ((memcpy temp contents total_size).set total_size 0), total_size)

/-- The buffer `response` after `curl_easy_perform` has delivered the chunks of one
response to `write_response_callback`, in order, each as `nmemb` items of size 1;
`response` starts as NULL. -/
def deliver_chunks (chunks : List (List Nat)) : Option (List Nat) :=
  chunks.foldl (fun response chunk => (write_response_callback chunk 1 chunk.length response).1)
    none

/-- The string the JSON parser is given (`json_parser_load_from_data (.., -1, ..)`) after
the chunks of a response were delivered. -/
def response_text (chunks : List (List Nat)) : Option (List Nat) :=
  (deliver_chunks chunks).map cstr

/-- The first chunk of a weather response delivered in two pieces (37 bytes). -/
def weather_chunk_1 : List Nat :=
  lit "\x7b\"current_weather\":\x7b\"temperature\":7.1"

/-- The second chunk of that response. -/
def weather_chunk_2 : List Nat :=
  lit "\x7d\x7d"

/-! # Theorems -/

/-! ## Lists and C strings -/

theorem range_block_count : List.range BLOCK_COUNT = [0, 1, 2, 3, 4] := by decide

theorem intercalate_cons_eq {α : Type} (sep x : List α) (l : List (List α)) :
    List.intercalate sep (x :: l) = x ++ (l.map (fun y => sep ++ y)).flatten := by
  induction l generalizing x with
  | nil => simp [List.intercalate]
  | cons y l ih =>
    have h := ih y
    simp only [List.intercalate] at h ⊢
    simp only [List.intersperse, List.flatten_cons, List.map_cons]
    rw [h]
    simp

theorem foldl_joinStep_nonempty (sep : List Nat) (items : List (Bool × List Nat))
    (h : ∀ p ∈ items, p.1 = true → p.2 ≠ []) (acc : List Nat) (hacc : acc ≠ []) :
    items.foldl (joinStep sep) acc
      = acc ++ (((items.filter (fun p => p.1)).map (fun p => sep ++ p.2)).flatten) := by
  induction items generalizing acc with
  | nil => simp
  | cons p rest ih =>
    have hrest : ∀ q ∈ rest, q.1 = true → q.2 ≠ [] := fun q hq => h q (List.mem_cons_of_mem _ hq)
    rw [List.foldl_cons]
    by_cases hp : p.1 = true
    · have hlen : acc.length > 0 := List.length_pos.mpr hacc
      have hne : joinStep sep acc p ≠ [] := by
        simp [joinStep, hp, hlen, hacc]
      rw [ih hrest _ hne]
      simp [joinStep, hp, hlen, List.filter_cons]
    · have hstep : joinStep sep acc p = acc := by simp [joinStep, hp]
      rw [hstep, ih hrest _ hacc]
      simp [List.filter_cons, hp]

theorem foldl_joinStep_nil (sep : List Nat) (items : List (Bool × List Nat))
    (h : ∀ p ∈ items, p.1 = true → p.2 ≠ []) :
    items.foldl (joinStep sep) []
      = List.intercalate sep ((items.filter (fun p => p.1)).map (fun p => p.2)) := by
  induction items with
  | nil => simp [List.intercalate]
  | cons p rest ih =>
    have hrest : ∀ q ∈ rest, q.1 = true → q.2 ≠ [] := fun q hq => h q (List.mem_cons_of_mem _ hq)
    rw [List.foldl_cons]
    by_cases hp : p.1 = true
    · have hp2 : p.2 ≠ [] := h p (List.mem_cons_self _ _) hp
      have hstep : joinStep sep [] p = p.2 := by simp [joinStep, hp]
      rw [hstep, foldl_joinStep_nonempty sep rest hrest _ hp2]
      simp only [List.filter_cons, hp, if_true, List.map_cons]
      rw [intercalate_cons_eq, List.map_map]
      rfl
    · have hstep : joinStep sep [] p = [] := by simp [joinStep, hp]
      rw [hstep, ih hrest]
      simp [List.filter_cons, hp]

theorem cstr_no_zero (p : List Nat) : 0 ∉ cstr p := by
  intro h
  have := List.mem_takeWhile_imp h
  simp at this

theorem cstr_eq_self {t : List Nat} (h : 0 ∉ t) : cstr t = t := by
  unfold cstr
  rw [List.takeWhile_eq_self_iff]
  intro x hx
  have : x ≠ 0 := fun h0 => h (h0 ▸ hx)
  simpa using this

theorem cstr_append_zero {a : List Nat} (h : 0 ∉ a) (r : List Nat) :
    cstr (a ++ 0 :: r) = a := by
  unfold cstr
  rw [List.takeWhile_append_of_pos]
  · simp
  · intro x hx
    have : x ≠ 0 := fun h0 => h (h0 ▸ hx)
    simpa using this

theorem strlen_eq_length {t : List Nat} (h : 0 ∉ t) : strlen t = t.length := by
  simp [strlen, cstr_eq_self h]

theorem not_mem_take {t : List Nat} (h : 0 ∉ t) (n : Nat) : 0 ∉ t.take n :=
  fun hm => h (List.mem_of_mem_take hm)

/-! ## Block store -/

theorem validated_text_no_zero (api : MarkupApi) (p : List Nat) :
    0 ∉ validated_text api (cstr p) := by
  unfold validated_text
  split
  · exact cstr_no_zero p
  · exact cstr_no_zero _

theorem stored_len_eq {v : List Nat} (h : 0 ∉ v) :
    stored_len v = min v.length (MAX_BLOCK_SIZE - 1) := by
  unfold stored_len
  rw [strlen_eq_length h]
  split <;> omega

theorem store_block_len (b : BlockData) {v : List Nat} (h : 0 ∉ v) :
    (store_block b v).len = ((min v.length (MAX_BLOCK_SIZE - 1) : Nat) : Int) := by
  simp [store_block, stored_len_eq h]

theorem store_block_data (b : BlockData) {v : List Nat} (h : 0 ∉ v)
    (hb : b.data.length = MAX_BLOCK_SIZE) :
    (store_block b v).data
      = v.take (min v.length (MAX_BLOCK_SIZE - 1))
          ++ 0 :: b.data.drop (min v.length (MAX_BLOCK_SIZE - 1) + 1) := by
  have hn : min v.length (MAX_BLOCK_SIZE - 1) < b.data.length := by
    rw [hb]; simp only [MAX_BLOCK_SIZE]; omega
  simp only [store_block, stored_len_eq h, memcpy]
  have htake : (v.take (min v.length (MAX_BLOCK_SIZE - 1))).length
      = min v.length (MAX_BLOCK_SIZE - 1) := by
    rw [List.length_take]; omega
  rw [List.set_append_right _ _ (by rw [htake]), htake, Nat.sub_self,
    List.drop_eq_getElem_cons hn]
  rfl

theorem store_block_cstr (b : BlockData) {v : List Nat} (h : 0 ∉ v)
    (hb : b.data.length = MAX_BLOCK_SIZE) :
    cstr (store_block b v).data = v.take (min v.length (MAX_BLOCK_SIZE - 1)) := by
  rw [store_block_data b h hb]
  exact cstr_append_zero (not_mem_take h _) _

theorem store_block_length (b : BlockData) {v : List Nat} (h : 0 ∉ v)
    (hb : b.data.length = MAX_BLOCK_SIZE) :
    (store_block b v).data.length = MAX_BLOCK_SIZE := by
  rw [store_block_data b h hb]
  simp only [List.length_append, List.length_take, List.length_cons, List.length_drop, hb,
    MAX_BLOCK_SIZE]
  omega

theorem update_block_blocks (api : MarkupApi) (sample : SamplePlugin) (block_id : Nat)
    (h : block_id < BLOCK_COUNT) (p : List Nat) :
    (update_block api sample block_id (some p)).blocks
      = Function.update sample.blocks ⟨block_id, h⟩
          (store_block (sample.blocks ⟨block_id, h⟩) (validated_text api (cstr p))) := by
  simp [update_block, h]

/-! ## The reference model: escaping -/

set_option maxRecDepth 100000 in
theorem char_ref_facts :
    ∀ c, c < 256 → (0 ∉ char_ref c ∧ 2 ≤ (char_ref c).length) := by
  decide

theorem escaped_control_lt {c : Nat} (h : escaped_control c = true) : c < 256 := by
  simp [escaped_control] at h
  omega

theorem escaped_c1_lt {d : Nat} (h : escaped_c1 d = true) : d < 256 := by
  simp [escaped_c1] at h
  omega

theorem escape_byte_facts (c : Nat) (hc : c ≠ 0) :
    0 ∉ escape_byte c ∧ 1 ≤ (escape_byte c).length := by
  unfold escape_byte
  split_ifs with h1 h2 h3 h4 h5 h6
  · decide
  · decide
  · decide
  · decide
  · decide
  · have := char_ref_facts c (escaped_control_lt h6)
    exact ⟨this.1, by omega⟩
  · simp [Ne.symm hc]

theorem escape_facts (t : List Nat) (h : 0 ∉ t) :
    0 ∉ g_markup_escape_text t ∧ t.length ≤ (g_markup_escape_text t).length := by
  induction t using g_markup_escape_text.induct with
  | case1 => simp [g_markup_escape_text]
  | case2 c =>
    have hc : c ≠ 0 := by intro h0; apply h; simp [h0]
    simpa [g_markup_escape_text] using escape_byte_facts c hc
  | case3 c d rest hcd ih =>
    have hrest : 0 ∉ rest := fun hm => h (by simp [hm])
    have := char_ref_facts d (escaped_c1_lt hcd.2)
    have ih := ih hrest
    rw [g_markup_escape_text, if_pos hcd]
    refine ⟨?_, ?_⟩
    · simp only [List.mem_append, not_or]
      exact ⟨this.1, ih.1⟩
    · simp only [List.length_append, List.length_cons]
      omega
  | case4 c d rest hcd ih =>
    have hc : c ≠ 0 := by intro h0; apply h; simp [h0]
    have hrest : 0 ∉ d :: rest := fun hm => h (List.mem_cons_of_mem _ hm)
    have := escape_byte_facts c hc
    have ih := ih hrest
    rw [g_markup_escape_text, if_neg hcd]
    refine ⟨?_, ?_⟩
    · simp only [List.mem_append, not_or]
      exact ⟨this.1, ih.1⟩
    · simp only [List.length_append, List.length_cons] at ih ⊢
      omega

theorem glib_escape_not_shorter (t : List Nat) (h : 0 ∉ t) :
    t.length ≤ strlen (glib.g_markup_escape_text t) := by
  have := escape_facts t h
  show t.length ≤ strlen (g_markup_escape_text t)
  rw [strlen_eq_length this.1]
  exact this.2

theorem start_threads_blocks (sample : SamplePlugin) :
    (start_threads sample).blocks
      = fun i => { len := 0, data := (sample.blocks i).data.set 0 0 } := by
  unfold start_threads
  simp only
  split_ifs <;> rfl

theorem start_threads_store_inv (sample : SamplePlugin)
    (harr : ∀ i : Fin BLOCK_COUNT, (sample.blocks i).data.length = MAX_BLOCK_SIZE) :
    StoreInv (start_threads sample) := by
  intro i
  rw [start_threads_blocks]
  refine ⟨by simpa using harr i, ?_⟩
  cases hd : (sample.blocks i).data with
  | nil => simp [strlen, cstr, hd]
  | cons x r => simp [strlen, cstr, hd]

theorem update_block_store_inv (api : MarkupApi) (sample : SamplePlugin) (block_id : Nat)
    (text : Option (List Nat)) (hinv : StoreInv sample) :
    StoreInv (update_block api sample block_id text) := by
  cases text with
  | none => exact hinv
  | some p =>
    by_cases h : block_id < BLOCK_COUNT
    · intro i
      rw [update_block_blocks api sample block_id h p]
      by_cases hi : i = ⟨block_id, h⟩
      · subst hi
        have hv := validated_text_no_zero api p
        rw [Function.update_same]
        refine ⟨store_block_length _ hv (hinv _).1, ?_⟩
        rw [store_block_len _ hv, strlen, store_block_cstr _ hv (hinv _).1, List.length_take]
        simp
      · rw [Function.update_noteq hi]
        exact hinv i
    · simpa [update_block, h] using hinv

theorem run_writes_store_inv (api : MarkupApi) (writes : List (Nat × Option (List Nat)))
    (sample : SamplePlugin) (hinv : StoreInv sample) :
    StoreInv (run_writes api sample writes) := by
  induction writes generalizing sample with
  | nil => exact hinv
  | cons w rest ih =>
    exact ih _ (update_block_store_inv api sample w.1 w.2 hinv)

/-- In every state reached from `start_threads` by `update_block` calls the length
field of each block is the length of its text: the hypothesis of the composition
theorem holds throughout a run. -/
theorem reachable_len_consistent (api : MarkupApi) (sample : SamplePlugin)
    (harr : ∀ i : Fin BLOCK_COUNT, (sample.blocks i).data.length = MAX_BLOCK_SIZE)
    (writes : List (Nat × Option (List Nat))) :
    LenConsistent (run_writes api (start_threads sample) writes) :=
  fun i => (run_writes_store_inv api writes _ (start_threads_store_inv sample harr) i).2

/-! ## The reference model: escaped text parses back to the original -/

theorem scan_append (s : Scan) (a b : List Nat) :
    scan s (a ++ b) = (scan s a).bind (fun s2 => scan s2 b) := by
  induction a generalizing s with
  | nil => simp [scan]
  | cons x a ih =>
    simp only [List.cons_append, scan]
    cases h : scan_step s x with
    | none => simp
    | some s2 => simp [ih]

theorem utf8_run_ascii_append (a r : List Nat) (ha : ∀ x ∈ a, x < 0x80) :
    utf8_run [] (a ++ r) = utf8_run [] r := by
  induction a with
  | nil => rfl
  | cons x a ih =>
    have hx : x < 0x80 := ha x (List.mem_cons_self _ _)
    rw [List.cons_append, utf8_run]
    simp only [utf8_step, hx, if_true, Option.some_bind]
    exact ih (fun y hy => ha y (List.mem_cons_of_mem _ hy))

set_option maxRecDepth 100000 in
theorem escape_byte_ascii : ∀ c, c < 0x80 → ∀ x ∈ escape_byte c, x < 0x80 := by
  decide

set_option maxRecDepth 100000 in
theorem char_ref_ascii : ∀ d, d < 256 → ∀ x ∈ char_ref d, x < 0x80 := by
  decide

theorem scan_escape_byte (c : Nat) (hc : c < 0x80) (hcr : c ≠ 13) (k : List (List Nat))
    (o : List Nat) :
    scan ⟨Mode.text, k, o, false⟩ (escape_byte c) = some ⟨Mode.text, k, o ++ [c], false⟩ := by
  interval_cases c <;> first | rfl | exact absurd rfl hcr

theorem scan_char_ref_c1 (d : Nat) (hd : escaped_c1 d = true) (k : List (List Nat))
    (o : List Nat) :
    scan ⟨Mode.text, k, o, false⟩ (char_ref d)
      = some ⟨Mode.text, k, o ++ [0xC2, d], false⟩ := by
  have h1 : 0x80 ≤ d := by simp [escaped_c1] at hd; omega
  have h2 : d ≤ 0x9f := by simp [escaped_c1] at hd; omega
  interval_cases d <;> rfl

theorem escape_byte_high (c : Nat) (hc : 0x80 ≤ c) : escape_byte c = [c] := by
  have h : escaped_control c = false := by
    simp [escaped_control]
    omega
  simp only [escape_byte, h]
  have h1 : c ≠ 38 := by omega
  have h2 : c ≠ 60 := by omega
  have h3 : c ≠ 62 := by omega
  have h4 : c ≠ 39 := by omega
  have h5 : c ≠ 34 := by omega
  simp [h1, h2, h3, h4, h5]

theorem scan_step_high (c : Nat) (hc : 0x80 ≤ c) (k : List (List Nat)) (o : List Nat) :
    scan_step ⟨Mode.text, k, o, false⟩ c = some ⟨Mode.text, k, o ++ [c], false⟩ := by
  have h1 : c ≠ 60 := by omega
  have h2 : c ≠ 38 := by omega
  have h3 : c ≠ 13 := by omega
  simp [scan_step, h1, h2, h3]

theorem utf8_step_cont (pending : List (Nat × Nat)) (b : Nat) (p2 : List (Nat × Nat))
    (hp : ContRanges pending) (h : utf8_step pending b = some p2) : ContRanges p2 := by
  cases pending with
  | cons x rest =>
    simp only [utf8_step] at h
    split_ifs at h
    simp only [Option.some.injEq] at h
    subst h
    exact fun y hy => hp y (List.mem_cons_of_mem _ hy)
  | nil =>
    simp only [utf8_step] at h
    split_ifs at h <;> simp only [Option.some.injEq] at h <;> subst h <;>
      intro y hy <;> simp at hy <;> (try rcases hy with hy | hy | hy) <;>
      (try subst hy) <;> simp_all

theorem utf8_run_cons {pending : List (Nat × Nat)} {c : Nat} {r : List Nat}
    (h : utf8_run pending (c :: r) = some []) :
    ∃ p2, utf8_step pending c = some p2 ∧ utf8_run p2 r = some [] := by
  rw [utf8_run] at h
  cases hs : utf8_step pending c with
  | none => simp [hs] at h
  | some p2 => exact ⟨p2, rfl, by simpa [hs] using h⟩

theorem escape_byte_step (c : Nat) (pending p2 : List (Nat × Nat)) (hp : ContRanges pending)
    (hstep : utf8_step pending c = some p2) (hcr : c ≠ 13) (X : List Nat)
    (k : List (List Nat)) (o : List Nat) :
    utf8_run pending (escape_byte c ++ X) = utf8_run p2 X ∧
    scan ⟨Mode.text, k, o, false⟩ (escape_byte c ++ X)
      = scan ⟨Mode.text, k, o ++ [c], false⟩ X := by
  by_cases hc : c < 0x80
  · cases pending with
    | cons x rest =>
      exfalso
      have := hp x (List.mem_cons_self _ _)
      simp only [utf8_step] at hstep
      split_ifs at hstep with h
      omega
    | nil =>
      have hp2 : p2 = [] := by
        simp only [utf8_step, hc, if_true, Option.some.injEq] at hstep
        exact hstep.symm
      subst hp2
      refine ⟨utf8_run_ascii_append _ _ (escape_byte_ascii c hc), ?_⟩
      rw [scan_append, scan_escape_byte c hc hcr]
      rfl
  · have hc2 : 0x80 ≤ c := by omega
    rw [escape_byte_high c hc2]
    refine ⟨?_, ?_⟩
    · simp [utf8_run, hstep]
    · simp [scan, scan_step_high c hc2]

theorem escape_scan (t : List Nat) :
    ∀ (pending : List (Nat × Nat)) (k : List (List Nat)) (o : List Nat),
      ContRanges pending → utf8_run pending t = some [] → 13 ∉ t →
      utf8_run pending (g_markup_escape_text t) = some [] ∧
      scan ⟨Mode.text, k, o, false⟩ (g_markup_escape_text t)
        = some ⟨Mode.text, k, o ++ t, false⟩ := by
  induction t using g_markup_escape_text.induct with
  | case1 =>
    intro pending k o _ h _
    simpa [g_markup_escape_text, scan] using h
  | case2 c =>
    intro pending k o hp h hcr
    obtain ⟨p2, hstep, hrest⟩ := utf8_run_cons h
    have hc : c ≠ 13 := by intro h0; apply hcr; simp [h0]
    have hS := escape_byte_step c pending p2 hp hstep hc [] k o
    simp only [List.append_nil] at hS
    rw [g_markup_escape_text, hS.1, hS.2]
    exact ⟨hrest, rfl⟩
  | case3 c d rest hcd ih =>
    intro pending k o hp h hcr
    obtain ⟨hc, hd⟩ := hcd
    subst hc
    have hd1 : 0x80 ≤ d ∧ d ≤ 0x9f := by simp [escaped_c1] at hd; omega
    have hrest : 13 ∉ rest := fun hm => hcr (by simp [hm])
    have hpend : pending = [] := by
      cases pending with
      | nil => rfl
      | cons x xs =>
        exfalso
        have := hp x (List.mem_cons_self _ _)
        obtain ⟨p2, hstep, _⟩ := utf8_run_cons h
        simp only [utf8_step] at hstep
        split_ifs at hstep with h
        omega
    subst hpend
    have hvalid : utf8_run [] rest = some [] := by
      obtain ⟨p2, hstep, h2⟩ := utf8_run_cons h
      simp [utf8_step] at hstep
      subst hstep
      obtain ⟨p3, hstep3, h3⟩ := utf8_run_cons h2
      have : 0x80 ≤ d ∧ d ≤ 0xBF := by omega
      simp [utf8_step, this] at hstep3
      subst hstep3
      exact h3
    have ih := ih [] k (o ++ [0xC2, d]) hp hvalid hrest
    rw [g_markup_escape_text, if_pos ⟨rfl, hd⟩]
    refine ⟨?_, ?_⟩
    · rw [utf8_run_ascii_append _ _ (char_ref_ascii d (by omega))]
      exact ih.1
    · rw [scan_append, scan_char_ref_c1 d hd, Option.some_bind, ih.2]
      simp
  | case4 c d rest hcd ih =>
    intro pending k o hp h hcr
    obtain ⟨p2, hstep, hrest⟩ := utf8_run_cons h
    have hc : c ≠ 13 := by intro h0; apply hcr; simp [h0]
    have hcr2 : 13 ∉ d :: rest := fun hm => hcr (List.mem_cons_of_mem _ hm)
    have hS := escape_byte_step c pending p2 hp hstep hc
      (g_markup_escape_text (d :: rest)) k o
    have ih := ih p2 k (o ++ [c]) (utf8_step_cont _ _ _ hp hstep) hrest hcr2
    rw [g_markup_escape_text, if_neg hcd, hS.1, hS.2]
    refine ⟨ih.1, ?_⟩
    rw [ih.2]
    simp

theorem pango_text_escape (t : List Nat) (hu : utf8_valid t = true) (hcr : 13 ∉ t) :
    pango_text (g_markup_escape_text t) = some t := by
  have hrun : utf8_run [] t = some [] := by simpa [utf8_valid] using hu
  have h := escape_scan t [] [] [] (by intro x hx; simp at hx) hrun hcr
  simp [pango_text, utf8_valid, h.1, h.2]

/-! ## Renderer -/

theorem display_text_eq_foldl (sample : SamplePlugin) :
    display_text sample = (loop_items sample).foldl (joinStep (lit " | ")) [] := by
  simp only [display_text, range_block_count, loop_items, flagged_blocks, List.map_cons,
    List.map_nil, List.foldl_cons, List.foldl_nil]
  rfl

theorem shown_texts_eq (sample : SamplePlugin) :
    shown_texts sample
      = ((loop_items sample).filter (fun p => p.1)).map (fun p => p.2) := by
  simp only [shown_texts, loop_items, List.filter_map, List.map_map]
  rfl

theorem cstr_ne_nil_of_len_pos (b : BlockData) (hb : b.len = (strlen b.data : Int))
    (hpos : b.len > 0) : cstr b.data ≠ [] := by
  intro h
  rw [hb] at hpos
  simp [strlen, h] at hpos

theorem loop_items_nonempty (sample : SamplePlugin) (h : LenConsistent sample) :
    ∀ p ∈ loop_items sample, p.1 = true → p.2 ≠ [] := by
  intro p hp hflag
  simp only [loop_items, flagged_blocks, List.map_cons, List.map_nil, List.mem_cons,
    List.mem_singleton, List.not_mem_nil, or_false] at hp
  rcases hp with hp | hp | hp | hp | hp <;> subst hp <;>
    simp only [Bool.and_eq_true, decide_eq_true_eq] at hflag <;>
    exact cstr_ne_nil_of_len_pos _ (h _) hflag.2

/-- C1: on every plugin state whose blocks satisfy the store invariant `len = strlen
(data)`, the string composed by `update_display` is the list of the texts of the blocks
that are enabled and have `len > 0`, in the order Weather, ExchangeRate, Battery, Memory,
Date, joined with `" | "` between consecutive items only. -/
theorem update_display_composes_shown_blocks (sample : SamplePlugin)
    (h : LenConsistent sample) :
    display_text sample = List.intercalate (lit " | ") (shown_texts sample) := by
  rw [display_text_eq_foldl, shown_texts_eq]
  exact foldl_joinStep_nil _ _ (loop_items_nonempty sample h)

/-- Witness for C1: the example of the specification; the composed string is exactly
the Date text. -/
theorem update_display_composes_shown_blocks_witness :
    LenConsistent example_sample ∧
    shown_texts example_sample = [lit "Sat Oct 31 14:47"] ∧
    display_text example_sample = lit "Sat Oct 31 14:47" ∧
    display_text example_sample
      = List.intercalate (lit " | ") (shown_texts example_sample) :=
  ⟨by intro i; fin_cases i <;> decide, by decide, by decide,
    update_display_composes_shown_blocks example_sample
      (by intro i; fin_cases i <;> decide)⟩

/-- C2: when the label exists and the composed string is non-empty, `update_display`
shows the composed string as markup exactly when it passes `pango_parse_markup`, shows
the plain text `Status Error` when it does not, and whatever it shows as markup has
passed the validation. -/
theorem update_display_markup_or_status_error (api : MarkupApi) (sample : SamplePlugin)
    (hlabel : sample.label ≠ none) (hne : display_text sample ≠ []) :
    ((update_display api sample).label = some (LabelContent.markup (display_text sample))
        ↔ api.pango_parse_markup (display_text sample) = true) ∧
    (api.pango_parse_markup (display_text sample) = false →
        (update_display api sample).label = some (LabelContent.text (lit "Status Error"))) ∧
    (∀ m, (update_display api sample).label = some (LabelContent.markup m) →
        m = display_text sample ∧ api.pango_parse_markup m = true) := by
  have hpos : (display_text sample).length > 0 := List.length_pos.mpr hne
  cases hl : sample.label with
  | none => exact absurd hl hlabel
  | some l =>
    cases hp : api.pango_parse_markup (display_text sample) <;>
      simp [update_display, hl, hpos, hp]

/-- Witness for C2: the example state, rendered with the reference model. -/
theorem update_display_markup_or_status_error_witness :
    example_sample.label ≠ none ∧ display_text example_sample ≠ [] ∧
    (update_display glib example_sample).label
      = some (LabelContent.markup (lit "Sat Oct 31 14:47")) ∧
    (((update_display glib example_sample).label
          = some (LabelContent.markup (display_text example_sample))
        ↔ glib.pango_parse_markup (display_text example_sample) = true) ∧
      (glib.pango_parse_markup (display_text example_sample) = false →
        (update_display glib example_sample).label
          = some (LabelContent.text (lit "Status Error"))) ∧
      (∀ m, (update_display glib example_sample).label = some (LabelContent.markup m) →
        m = display_text example_sample ∧ glib.pango_parse_markup m = true)) :=
  ⟨by decide, by decide, by decide,
    update_display_markup_or_status_error glib example_sample (by decide) (by decide)⟩

/-- C3 as stated fails: right after `sample_new` no block has content, and the label
`update_display` sets is not the word Loading followed by the one character U+2026. -/
theorem update_display_placeholder_not_ellipsis :
    (sample_new default_settings).label ≠ none ∧
    (∀ i : Fin BLOCK_COUNT, ¬ ((sample_new default_settings).blocks i).len > 0) ∧
    (update_display glib (sample_new default_settings)).label
      ≠ some (LabelContent.text (lit "Loading…")) := by
  refine ⟨by decide, ?_, by decide⟩
  intro i
  fin_cases i <;> decide

/-- C3, amended: when the label exists and no enabled block has `len > 0`,
`update_display` shows the plain text `Loading...`, the word Loading followed by three
full stops (U+002E), the same text `sample_new` gives the label. -/
theorem update_display_placeholder_loading (api : MarkupApi) (sample : SamplePlugin)
    (hlabel : sample.label ≠ none)
    (hempty : ∀ i : Fin BLOCK_COUNT,
      show_block sample i.val = true → ¬ (sample.blocks i).len > 0) :
    (update_display api sample).label = some (LabelContent.text (lit "Loading...")) ∧
    lit "Loading..." = [76, 111, 97, 100, 105, 110, 103, 46, 46, 46] := by
  have hd : display_text sample = [] := by
    have hstep : ∀ (acc : List Nat) (i : Nat), display_step sample acc i = acc := by
      intro acc i
      unfold display_step
      split
      · rename_i h
        by_cases hs : show_block sample i = true
        · have := hempty ⟨i, h⟩ hs
          simp [hs, this]
        · simp [hs]
      · rfl
    simp [display_text, range_block_count, hstep]
  cases hl : sample.label with
  | none => exact absurd hl hlabel
  | some l =>
    refine ⟨?_, by decide⟩
    simp [update_display, hl, hd]

/-- Witness for C3 (amended): the state right after `sample_new`. -/
theorem update_display_placeholder_loading_witness :
    (update_display glib (sample_new default_settings)).label
      = some (LabelContent.text (lit "Loading...")) ∧
    lit "Loading..." = [76, 111, 97, 100, 105, 110, 103, 46, 46, 46] :=
  update_display_placeholder_loading glib (sample_new default_settings) (by decide)
    (by intro i _; fin_cases i <;> decide)

/-- C4: for a valid block id and any text, with `v` the sanitized text (the input if it
parses as markup, its escaped form otherwise) and `L` its length, `update_block` leaves
in the block `len = min (L, MAX_BLOCK_SIZE - 1)`, the first `min (L, 255)` bytes of `v`
followed by a NUL, hence that prefix as the stored C string; and whenever escaping does
not shorten a text, an input longer than 256 bytes leaves `len = 255`.  The function
has no error result. -/
theorem update_block_stores_truncated (api : MarkupApi) (sample : SamplePlugin)
    (block_id : Nat) (h : block_id < BLOCK_COUNT) (p : List Nat)
    (harr : (sample.blocks ⟨block_id, h⟩).data.length = MAX_BLOCK_SIZE)
    (hesc : ∀ t : List Nat, 0 ∉ t → t.length ≤ strlen (api.g_markup_escape_text t)) :
    let v := validated_text api (cstr p)
    let b := (update_block api sample block_id (some p)).blocks ⟨block_id, h⟩
    v = (if api.pango_parse_markup (cstr p) then cstr p
          else cstr (api.g_markup_escape_text (cstr p))) ∧
    b.len = ((min v.length (MAX_BLOCK_SIZE - 1) : Nat) : Int) ∧
    b.data.take (min v.length 255) = v.take (min v.length 255) ∧
    b.data[min v.length 255]? = some 0 ∧
    cstr b.data = v.take (min v.length 255) ∧
    (MAX_BLOCK_SIZE < (cstr p).length → b.len = 255) := by
  intro v b
  have hv : 0 ∉ v := validated_text_no_zero api p
  have hb : b = store_block (sample.blocks ⟨block_id, h⟩) v := by
    simp [b, v, update_block_blocks api sample block_id h p]
  have hdata := store_block_data (sample.blocks ⟨block_id, h⟩) hv harr
  have htake : (v.take (min v.length 255)).length = min v.length 255 := by
    rw [List.length_take]; omega
  refine ⟨rfl, ?_, ?_, ?_, ?_, ?_⟩
  · rw [hb]; exact store_block_len _ hv
  · rw [hb, hdata]
    show List.take (min v.length 255) (List.take (min v.length 255) v ++ _) = _
    rw [List.take_append_of_le_length (by rw [htake]), List.take_take, min_self]
  · rw [hb, hdata]
    show (List.take (min v.length 255) v ++ _)[min v.length 255]? = some 0
    rw [List.getElem?_append_right (by rw [htake]), htake, Nat.sub_self]
    simp
  · rw [hb]; exact store_block_cstr _ hv harr
  · intro hlong
    have hlen : MAX_BLOCK_SIZE ≤ v.length := by
      show MAX_BLOCK_SIZE ≤ (validated_text api (cstr p)).length
      unfold validated_text
      split
      · exact Nat.le_of_lt hlong
      · exact Nat.le_trans (Nat.le_of_lt hlong) (hesc _ (cstr_no_zero p))
    rw [hb, store_block_len _ hv]
    simp only [MAX_BLOCK_SIZE] at hlen ⊢
    omega

set_option maxRecDepth 1000000 in
/-- Witness for C4: the weather text for `1e300` (349 bytes) written into the Weather
block right after `sample_new`; the stored length is 255. -/
theorem update_block_stores_truncated_witness :
    MAX_BLOCK_SIZE < (cstr hot_weather_text).length ∧
    ((update_block glib (sample_new default_settings) BLOCK_WEATHER
        (some hot_weather_text)).blocks 0).len = 255 :=
  ⟨by decide,
    (update_block_stores_truncated glib (sample_new default_settings) BLOCK_WEATHER
      (by decide) hot_weather_text (by decide) glib_escape_not_shorter).2.2.2.2.2
      (by decide)⟩

set_option maxRecDepth 1000000 in
/-- C5 as stated fails: 256 letters `a` are valid markup of exactly the capacity, and
the text stored for them differs from the input (it is the first 255 letters). -/
theorem update_block_capacity_text_not_identity :
    glib.pango_parse_markup (cstr (List.replicate 256 97)) = true ∧
    (cstr (List.replicate 256 97)).length ≤ MAX_BLOCK_SIZE ∧
    cstr ((update_block glib (sample_new default_settings) BLOCK_DATE
        (some (List.replicate 256 97))).blocks 4).data ≠ cstr (List.replicate 256 97) ∧
    cstr ((update_block glib (sample_new default_settings) BLOCK_DATE
        (some (List.replicate 256 97))).blocks 4).data = List.replicate 255 97 := by
  decide

/-- C5, amended: a text that parses as markup and has at most `MAX_BLOCK_SIZE - 1`
(255) bytes is stored unchanged: the sanitized text is the input and the C string left
in the block, as well as its length field, are those of the input. -/
theorem update_block_identity_on_valid (api : MarkupApi) (sample : SamplePlugin)
    (block_id : Nat) (h : block_id < BLOCK_COUNT) (p : List Nat)
    (harr : (sample.blocks ⟨block_id, h⟩).data.length = MAX_BLOCK_SIZE)
    (hvalid : api.pango_parse_markup (cstr p) = true)
    (hlen : (cstr p).length ≤ MAX_BLOCK_SIZE - 1) :
    validated_text api (cstr p) = cstr p ∧
    cstr ((update_block api sample block_id (some p)).blocks ⟨block_id, h⟩).data = cstr p ∧
    ((update_block api sample block_id (some p)).blocks ⟨block_id, h⟩).len
      = ((cstr p).length : Int) := by
  have hv : validated_text api (cstr p) = cstr p := by simp [validated_text, hvalid]
  have hz : 0 ∉ cstr p := cstr_no_zero p
  rw [update_block_blocks api sample block_id h p, Function.update_same, hv]
  refine ⟨rfl, ?_, ?_⟩
  · rw [store_block_cstr _ hz harr, Nat.min_eq_left hlen, List.take_length]
  · rw [store_block_len _ hz, Nat.min_eq_left hlen]

set_option maxRecDepth 1000000 in
/-- Witness for C5 (amended): a date line written into the Date block. -/
theorem update_block_identity_on_valid_witness :
    glib.pango_parse_markup (cstr (lit "<b>Sat Oct 31</b> 14:47")) = true ∧
    cstr ((update_block glib (sample_new default_settings) BLOCK_DATE
        (some (lit "<b>Sat Oct 31</b> 14:47"))).blocks ⟨BLOCK_DATE, by decide⟩).data
      = cstr (lit "<b>Sat Oct 31</b> 14:47") :=
  ⟨by decide,
    (update_block_identity_on_valid glib (sample_new default_settings) BLOCK_DATE
      (by decide) (lit "<b>Sat Oct 31</b> 14:47") (by decide) (by decide) (by decide)).2.1⟩

set_option maxRecDepth 1000000 in
/-- C6, the code at the failing input: the weather text for the temperature `1e300`
is valid markup of 349 bytes; written into the Weather block right after `sample_new`
it leaves a non-empty text of 255 bytes that is not valid markup (its `span` is never
closed), and the next `update_display` shows `Status Error`. -/
theorem update_block_truncation_breaks_markup :
    glib.pango_parse_markup (cstr hot_weather_text) = true ∧
    (cstr hot_weather_text).length = 349 ∧
    (cstr ((update_block glib (sample_new default_settings) BLOCK_WEATHER
        (some hot_weather_text)).blocks 0).data).length = 255 ∧
    glib.pango_parse_markup (cstr ((update_block glib (sample_new default_settings)
        BLOCK_WEATHER (some hot_weather_text)).blocks 0).data) = false ∧
    (update_display glib (update_block glib (sample_new default_settings) BLOCK_WEATHER
        (some hot_weather_text))).label = some (LabelContent.text (lit "Status Error")) := by
  decide

/-- C7 as stated fails in two ways.  The Latin-1 bytes of `café` are not UTF-8: they
fail validation, the sanitized text is their escaped form, identical to the input, and
it still fails validation.  The text `a<` followed by a carriage return fails
validation and its escaped form is valid, but it renders with a newline in place of
the carriage return, not as the original. -/
theorem update_block_escape_not_always_literal :
    (glib.pango_parse_markup (cstr [99, 97, 102, 0xE9]) = false ∧
      validated_text glib (cstr [99, 97, 102, 0xE9])
        = g_markup_escape_text (cstr [99, 97, 102, 0xE9]) ∧
      glib.pango_parse_markup (validated_text glib (cstr [99, 97, 102, 0xE9])) = false) ∧
    (glib.pango_parse_markup (cstr (lit "a<\r")) = false ∧
      validated_text glib (cstr (lit "a<\r")) = lit "a&lt;\r" ∧
      pango_text (validated_text glib (cstr (lit "a<\r"))) = some (lit "a<\n") ∧
      pango_text (validated_text glib (cstr (lit "a<\r"))) ≠ some (cstr (lit "a<\r"))) := by
  decide

/-- C7, amended: for every input text that fails markup validation, is well-formed
UTF-8 and contains no carriage return, the sanitized text of `update_block` is the
escaped form of the input, it is valid markup, and the markup parser reads the
original text back from it, so nothing of the input is taken as a tag. -/
theorem update_block_escapes_invalid_text (p : List Nat)
    (hinvalid : glib.pango_parse_markup (cstr p) = false)
    (hutf8 : utf8_valid (cstr p) = true) (hcr : 13 ∉ cstr p) :
    validated_text glib (cstr p) = g_markup_escape_text (cstr p) ∧
    glib.pango_parse_markup (validated_text glib (cstr p)) = true ∧
    pango_text (validated_text glib (cstr p)) = some (cstr p) := by
  have hesc : cstr (g_markup_escape_text (cstr p)) = g_markup_escape_text (cstr p) :=
    cstr_eq_self (escape_facts _ (cstr_no_zero p)).1
  have hv : validated_text glib (cstr p) = g_markup_escape_text (cstr p) := by
    unfold validated_text
    rw [if_neg (by simp [hinvalid])]
    exact hesc
  have ht := pango_text_escape (cstr p) hutf8 hcr
  refine ⟨hv, ?_, ?_⟩
  · show (pango_text (validated_text glib (cstr p))).isSome = true
    rw [hv, ht]
    rfl
  · rw [hv, ht]

/-- Witness for C7 (amended): a text with an unclosed tag and a bare ampersand. -/
theorem update_block_escapes_invalid_text_witness :
    glib.pango_parse_markup (cstr (lit "<b>Tom & Jerry")) = false ∧
    validated_text glib (cstr (lit "<b>Tom & Jerry")) = lit "&lt;b&gt;Tom &amp; Jerry" ∧
    pango_text (validated_text glib (cstr (lit "<b>Tom & Jerry")))
      = some (cstr (lit "<b>Tom & Jerry")) :=
  ⟨by decide, by decide,
    (update_block_escapes_invalid_text (lit "<b>Tom & Jerry") (by decide) (by decide)
      (by decide)).2.2⟩

/-! ## Producers -/

/-- C8: the weather classifier sends every temperature to one of six pairwise distinct
icon and colour pairs by closed-open ranges: below 0, [0,10), [10,18), [18,22), [22,30)
and 30 or more give the colours #1e90ff, #00bfff, #32cd32, #ffd700, #ffa500, #ff4500,
and each cut point 0, 10, 18, 22, 30 falls in the bucket above it. -/
theorem weather_classifier_buckets (t : GDouble) :
    (t.lt 0 = true → weather_icon_color t = weather_pairs.getD 0 ([], [])) ∧
    (t.ge 0 = true → t.lt 10 = true → weather_icon_color t = weather_pairs.getD 1 ([], [])) ∧
    (t.ge 10 = true → t.lt 18 = true → weather_icon_color t = weather_pairs.getD 2 ([], [])) ∧
    (t.ge 18 = true → t.lt 22 = true → weather_icon_color t = weather_pairs.getD 3 ([], [])) ∧
    (t.ge 22 = true → t.lt 30 = true → weather_icon_color t = weather_pairs.getD 4 ([], [])) ∧
    (t.ge 30 = true → weather_icon_color t = weather_pairs.getD 5 ([], [])) ∧
    weather_icon_color t ∈ weather_pairs ∧
    weather_pairs.length = 6 ∧ weather_pairs.Nodup ∧ (weather_pairs.map Prod.snd).Nodup ∧
    weather_pairs.map Prod.snd
      = [lit "#1e90ff", lit "#00bfff", lit "#32cd32", lit "#ffd700", lit "#ffa500",
         lit "#ff4500"] ∧
    (weather_icon_color (GDouble.finite 0)).2 = lit "#00bfff" ∧
    (weather_icon_color (GDouble.finite 10)).2 = lit "#32cd32" ∧
    (weather_icon_color (GDouble.finite 18)).2 = lit "#ffd700" ∧
    (weather_icon_color (GDouble.finite 22)).2 = lit "#ffa500" ∧
    (weather_icon_color (GDouble.finite 30)).2 = lit "#ff4500" := by
  refine ⟨?_, ?_, ?_, ?_, ?_, ?_, ?_, by decide, by decide, by decide, by decide,
    by decide, by decide, by decide, by decide, by decide⟩
  all_goals
    cases t with
    | nan => simp [weather_icon_color, GDouble.lt, GDouble.ge, weather_pairs]
    | neg_inf => simp [weather_icon_color, GDouble.lt, GDouble.ge, weather_pairs]
    | pos_inf => simp [weather_icon_color, GDouble.lt, GDouble.ge, weather_pairs]
    | finite q =>
      simp only [weather_icon_color, GDouble.lt, GDouble.ge, weather_pairs,
        decide_eq_true_eq, List.getD_cons_zero, List.getD_cons_succ, Int.cast_ofNat,
        Int.cast_zero]
      by_cases h0 : q < 0 <;> by_cases h1 : q < 10 <;> by_cases h2 : q < 18 <;>
        by_cases h3 : q < 22 <;> by_cases h4 : q < 30 <;>
        simp [h0, h1, h2, h3, h4] <;> intros <;> linarith

/-- Witness for C8: exactly 0 degrees lies in the range [0,10) and gets its pair. -/
theorem weather_classifier_buckets_witness :
    (GDouble.finite 0).ge 0 = true ∧ (GDouble.finite 0).lt 10 = true ∧
    weather_icon_color (GDouble.finite 0) = weather_pairs.getD 1 ([], []) :=
  ⟨by decide, by decide,
    (weather_classifier_buckets (GDouble.finite 0)).2.1 (by decide) (by decide)⟩

/-- C9: the battery classifier sends every integer capacity to one of five pairwise
distinct colours by closed-open ranges, below 10, [10,25), [25,50), [50,75) and 75 or
more giving #ff0000, #eb9634, #ebd334, #c6eb34, #00ff00, always with the same icon; each
cut point 10, 25, 50, 75 falls in the bucket above it. -/
theorem battery_classifier_buckets (c : Int) :
    (c < 10 → (battery_icon_color c).2 = lit "#ff0000") ∧
    (10 ≤ c → c < 25 → (battery_icon_color c).2 = lit "#eb9634") ∧
    (25 ≤ c → c < 50 → (battery_icon_color c).2 = lit "#ebd334") ∧
    (50 ≤ c → c < 75 → (battery_icon_color c).2 = lit "#c6eb34") ∧
    (75 ≤ c → (battery_icon_color c).2 = lit "#00ff00") ∧
    (battery_icon_color c).1 = battery_icon ∧
    (battery_icon_color c).2 ∈ battery_colors ∧
    battery_colors
      = [lit "#ff0000", lit "#eb9634", lit "#ebd334", lit "#c6eb34", lit "#00ff00"] ∧
    battery_colors.Nodup ∧
    (battery_icon_color 10).2 = lit "#eb9634" ∧
    (battery_icon_color 25).2 = lit "#ebd334" ∧
    (battery_icon_color 50).2 = lit "#c6eb34" ∧
    (battery_icon_color 75).2 = lit "#00ff00" := by
  refine ⟨?_, ?_, ?_, ?_, ?_, ?_, ?_, rfl, by decide, by decide, by decide, by decide,
    by decide⟩
  all_goals
    by_cases h0 : c < 10 <;> by_cases h1 : c < 25 <;> by_cases h2 : c < 50 <;>
      by_cases h3 : c < 75 <;>
      simp [battery_icon_color, battery_icon, battery_colors, h0, h1, h2, h3] <;>
      intros <;> omega

/-- Witness for C9: a capacity of exactly 10 percent lies in [10,25). -/
theorem battery_classifier_buckets_witness :
    (10 : Int) ≤ 10 ∧ (10 : Int) < 25 ∧ (battery_icon_color 10).2 = lit "#eb9634" :=
  ⟨by decide, by decide, (battery_classifier_buckets 10).2.1 (by decide) (by decide)⟩

/-- C10: for `gulong` counters with `mem_total > 0`, the used-memory value of
`get_memory_info` is `mem_total - mem_free - (cached + mem_reclaimable)` modulo `2^64`;
it is that difference itself when `mem_free + cached + mem_reclaimable ≤ mem_total`, it
does not depend on `buffers`, and it is the value `get_memory_info` formats. -/
theorem mem_used_formula (lines : List MeminfoLine) (shown : Nat → List Nat)
    (htotal : 0 < (read_meminfo lines).mem_total)
    (h1 : (read_meminfo lines).mem_total < 2 ^ 64)
    (h2 : (read_meminfo lines).mem_free < 2 ^ 64)
    (h3 : (read_meminfo lines).cached < 2 ^ 64)
    (h4 : (read_meminfo lines).mem_reclaimable < 2 ^ 64) :
    ((mem_used (read_meminfo lines) : Int)
      = (((read_meminfo lines).mem_total : Int) - (read_meminfo lines).mem_free
          - ((read_meminfo lines).cached + (read_meminfo lines).mem_reclaimable)) % 2 ^ 64) ∧
    ((read_meminfo lines).mem_free + (read_meminfo lines).cached
        + (read_meminfo lines).mem_reclaimable ≤ (read_meminfo lines).mem_total →
      mem_used (read_meminfo lines)
        = (read_meminfo lines).mem_total - (read_meminfo lines).mem_free
            - ((read_meminfo lines).cached + (read_meminfo lines).mem_reclaimable)) ∧
    (∀ b : Nat, mem_used { read_meminfo lines with buffers := b }
      = mem_used (read_meminfo lines)) ∧
    get_memory_info shown (some lines)
      = some (memory_text (shown (mem_used (read_meminfo lines)))) := by
  have hget : get_memory_info shown (some lines)
      = some (memory_text (shown (mem_used (read_meminfo lines)))) := by
    simp [get_memory_info, htotal]
  generalize read_meminfo lines = c at *
  refine ⟨?_, ?_, fun b => rfl, ?_⟩
  · simp only [mem_used, gulong_add, gulong_sub]
    norm_num at h1 h2 h3 h4 ⊢
    omega
  · intro hle
    simp only [mem_used, gulong_add, gulong_sub]
    norm_num at h1 h2 h3 h4 ⊢
    omega
  · exact hget

/-- Witness for C10: a 16 GB machine; the Buffers line does not enter the result. -/
theorem mem_used_formula_witness :
    mem_used (read_meminfo [MeminfoLine.mem_total 16384000, MeminfoLine.mem_free 4000000,
        MeminfoLine.other, MeminfoLine.buffers 700000, MeminfoLine.cached 3000000,
        MeminfoLine.s_reclaimable 500000])
      = 16384000 - 4000000 - (3000000 + 500000) :=
  (mem_used_formula [MeminfoLine.mem_total 16384000, MeminfoLine.mem_free 4000000,
      MeminfoLine.other, MeminfoLine.buffers 700000, MeminfoLine.cached 3000000,
      MeminfoLine.s_reclaimable 500000] (fun _ => []) (by decide) (by decide) (by decide)
    (by decide) (by decide)).2.1 (by decide)

/-! ## Lifecycle -/

theorem sample_new_eq (cfg : Settings) : sample_new cfg = start_threads (sample_init cfg) :=
  rfl

theorem status_thread_ext (t u : StatusThread) (h1 : t.thread = u.thread)
    (h2 : t.running = u.running) : t = u := by
  cases t; cases u; simp_all

theorem start_threads_date (sample : SamplePlugin) :
    (start_threads sample).date_thread
      = if sample.show_date then { running := true, thread := some Worker.date }
        else sample.date_thread := by
  unfold start_threads
  simp only
  split_ifs <;> rfl

theorem start_threads_memory (sample : SamplePlugin) :
    (start_threads sample).memory_thread
      = if sample.show_memory then { running := true, thread := some Worker.memory }
        else sample.memory_thread := by
  unfold start_threads
  simp only
  split_ifs <;> rfl

theorem start_threads_weather (sample : SamplePlugin) :
    (start_threads sample).weather_thread
      = if sample.show_weather && sample.weather_location.isSome
        then { running := true, thread := some Worker.weather }
        else sample.weather_thread := by
  unfold start_threads
  simp only
  split_ifs <;> rfl

theorem start_threads_exchange (sample : SamplePlugin) :
    (start_threads sample).exchange_thread
      = if sample.show_exchange && sample.exchange_api_key.isSome
        then { running := true, thread := some Worker.exchange }
        else sample.exchange_thread := by
  unfold start_threads
  simp only
  split_ifs <;> rfl

theorem start_threads_battery (sample : SamplePlugin) :
    (start_threads sample).battery_thread
      = if sample.show_battery then { running := true, thread := some Worker.battery }
        else sample.battery_thread := by
  unfold start_threads
  simp only
  split_ifs <;> rfl

theorem start_threads_settings (sample : SamplePlugin) :
    settings_of (start_threads sample) = settings_of sample := by
  unfold start_threads settings_of
  simp only
  split_ifs <;> rfl

/-- C12: on a plugin whose five workers are not started (NULL handle, flag false), as in
`sample_new`, `start_threads` leaves every block empty (`len = 0`, `data[0] = NUL`),
and afterwards a worker has a handle and a true running flag exactly for Date iff
`show_date`, Memory iff `show_memory`, Battery iff `show_battery`, Weather iff
`show_weather` and a location is set, Exchange iff `show_exchange` and a key is set; the
other workers keep a NULL handle and a false flag.  The settings are not changed. -/
theorem start_threads_starts_configured (sample : SamplePlugin)
    (harr : ∀ i : Fin BLOCK_COUNT, (sample.blocks i).data.length = MAX_BLOCK_SIZE)
    (hhandles : worker_handles sample = [none, none, none, none, none])
    (hflags : running_flags sample = [false, false, false, false, false]) :
    (∀ i : Fin BLOCK_COUNT, ((start_threads sample).blocks i).len = 0 ∧
      ((start_threads sample).blocks i).data[0]? = some 0 ∧
      cstr ((start_threads sample).blocks i).data = []) ∧
    (start_threads sample).date_thread
      = { thread := if sample.show_date then some Worker.date else none,
          running := sample.show_date } ∧
    (start_threads sample).memory_thread
      = { thread := if sample.show_memory then some Worker.memory else none,
          running := sample.show_memory } ∧
    (start_threads sample).weather_thread
      = { thread := if sample.show_weather && sample.weather_location.isSome
            then some Worker.weather else none,
          running := sample.show_weather && sample.weather_location.isSome } ∧
    (start_threads sample).exchange_thread
      = { thread := if sample.show_exchange && sample.exchange_api_key.isSome
            then some Worker.exchange else none,
          running := sample.show_exchange && sample.exchange_api_key.isSome } ∧
    (start_threads sample).battery_thread
      = { thread := if sample.show_battery then some Worker.battery else none,
          running := sample.show_battery } ∧
    settings_of (start_threads sample) = settings_of sample := by
  simp only [worker_handles, running_flags, List.cons.injEq, and_true] at hhandles hflags
  obtain ⟨hd, hm, hw, he, hb⟩ := hhandles
  obtain ⟨fd, fm, fw, fe, fb⟩ := hflags
  refine ⟨?_, ?_, ?_, ?_, ?_, ?_, start_threads_settings sample⟩
  · intro i
    rw [start_threads_blocks]
    have hlen := harr i
    cases hdata : (sample.blocks i).data with
    | nil => simp [hdata] at hlen
    | cons x r => simp [cstr, hdata]
  · rw [start_threads_date]
    split_ifs with h
    · simp [h]
    · exact status_thread_ext _ _ hd (by simp [h, fd])
  · rw [start_threads_memory]
    split_ifs with h
    · simp [h]
    · exact status_thread_ext _ _ hm (by simp [h, fm])
  · rw [start_threads_weather]
    split_ifs with h
    · rw [h]
    · exact status_thread_ext _ _ hw (by simp [h, fw])
  · rw [start_threads_exchange]
    split_ifs with h
    · rw [h]
    · exact status_thread_ext _ _ he (by simp [h, fe])
  · rw [start_threads_battery]
    split_ifs with h
    · simp [h]
    · exact status_thread_ext _ _ hb (by simp [h, fb])

set_option maxRecDepth 100000 in
/-- Witness for C12: the default settings, which give no location and no key: Date,
Memory and Battery are started, Weather and Exchange are not. -/
theorem start_threads_starts_configured_witness :
    (start_threads (sample_init default_settings)).weather_thread
      = { thread := none, running := false } ∧
    (start_threads (sample_init default_settings)).date_thread
      = { thread := some Worker.date, running := true } :=
  ⟨(start_threads_starts_configured (sample_init default_settings)
      (by intro i; fin_cases i <;> decide) (by decide) (by decide)).2.2.2.1,
   (start_threads_starts_configured (sample_init default_settings)
      (by intro i; fin_cases i <;> decide) (by decide) (by decide)).2.1⟩

/-- C13: for every plugin state, after `stop_threads` all five running flags are false
and all five handles are NULL; what it does is: clear the five flags, then join exactly
the workers whose handle was not NULL on entry, each once, in the order Date, Memory,
Weather, Exchange, Battery. -/
theorem stop_threads_clears_and_joins (sample : SamplePlugin) :
    running_flags (stop_threads sample) = [false, false, false, false, false] ∧
    worker_handles (stop_threads sample) = [none, none, none, none, none] ∧
    (stop_threads_run sample).2
      = [StopEvent.clear_running Worker.date, StopEvent.clear_running Worker.memory,
         StopEvent.clear_running Worker.weather, StopEvent.clear_running Worker.exchange,
         StopEvent.clear_running Worker.battery]
        ++ ((worker_handles sample).filterMap id).map StopEvent.join := by
  cases hd : sample.date_thread.thread <;> cases hm : sample.memory_thread.thread <;>
    cases hw : sample.weather_thread.thread <;> cases he : sample.exchange_thread.thread <;>
    cases hb : sample.battery_thread.thread <;>
    simp [stop_threads, stop_threads_run, join_thread, running_flags, worker_handles, hd, hm,
      hw, he, hb]

/-- C14: `stop_threads` after `stop_threads` gives the same plugin as one call; and on a
plugin whose five handles are NULL (never started, or already stopped) it joins nothing
and leaves the handles, the blocks, the label and the settings as they were. -/
theorem stop_threads_idempotent (sample : SamplePlugin) :
    stop_threads (stop_threads sample) = stop_threads sample ∧
    (worker_handles sample = [none, none, none, none, none] →
      (∀ e ∈ (stop_threads_run sample).2, ∀ h, e ≠ StopEvent.join h) ∧
      worker_handles (stop_threads sample) = worker_handles sample ∧
      (stop_threads sample).blocks = sample.blocks ∧
      (stop_threads sample).label = sample.label ∧
      settings_of (stop_threads sample) = settings_of sample) := by
  refine ⟨?_, ?_⟩
  · cases hd : sample.date_thread.thread <;> cases hm : sample.memory_thread.thread <;>
      cases hw : sample.weather_thread.thread <;> cases he : sample.exchange_thread.thread <;>
      cases hb : sample.battery_thread.thread <;>
      simp [stop_threads, stop_threads_run, join_thread, hd, hm, hw, he, hb]
  · intro h
    simp only [worker_handles, List.cons.injEq, and_true] at h
    obtain ⟨hd, hm, hw, he, hb⟩ := h
    simp [stop_threads, stop_threads_run, join_thread, worker_handles, settings_of, hd, hm,
      hw, he, hb]

/-- Witness for C14: a plugin that was never started, and the plugin after a stop. -/
theorem stop_threads_idempotent_witness :
    (∀ e ∈ (stop_threads_run (sample_init default_settings)).2,
      ∀ h, e ≠ StopEvent.join h) ∧
    (∀ e ∈ (stop_threads_run (stop_threads (sample_new default_settings))).2,
      ∀ h, e ≠ StopEvent.join h) :=
  ⟨((stop_threads_idempotent (sample_init default_settings)).2 (by decide)).1,
   ((stop_threads_idempotent (stop_threads (sample_new default_settings))).2
      (by decide)).1⟩

/-- C15, the code at the failing input.  The plugin is started with a weather location
and no key, so the Weather worker runs and the Exchange worker does not.  A commit that
turns Weather off, changes the location and sets a key leaves the Weather worker
running with its handle and starts no Exchange worker: after the commit the workers are
neither all stopped nor those `start_threads` would start from the new settings. -/
theorem settings_commit_keeps_workers :
    (sample_configure_response
        { weather_location_entry := lit "35.68,139.69", exchange_api_key_entry := lit "k3y",
          show_weather_check := false, show_exchange_check := true,
          show_battery_check := true, show_memory_check := true, show_date_check := true }
        (-5)
        (sample_new { default_settings with weather_location := some (lit "52.52,13.40") })).1.weather_thread
      = { thread := some Worker.weather, running := true } ∧
    running_flags (sample_configure_response
        { weather_location_entry := lit "35.68,139.69", exchange_api_key_entry := lit "k3y",
          show_weather_check := false, show_exchange_check := true,
          show_battery_check := true, show_memory_check := true, show_date_check := true }
        (-5)
        (sample_new { default_settings with weather_location := some (lit "52.52,13.40") })).1
      ≠ [false, false, false, false, false] ∧
    running_flags (sample_configure_response
        { weather_location_entry := lit "35.68,139.69", exchange_api_key_entry := lit "k3y",
          show_weather_check := false, show_exchange_check := true,
          show_battery_check := true, show_memory_check := true, show_date_check := true }
        (-5)
        (sample_new { default_settings with weather_location := some (lit "52.52,13.40") })).1
      ≠ running_flags (sample_new
          { weather_location := some (lit "35.68,139.69"), exchange_api_key := some (lit "k3y"),
            update_interval := 60, show_weather := false, show_exchange := true,
            show_battery := true, show_memory := true, show_date := true }) := by
  decide

/-- What a settings commit (any response but help) does: the location, the key and the
five enable flags become what the dialog holds and exactly these settings are saved;
the five thread records, the blocks and the label are not touched, since neither
`stop_threads` nor `start_threads` is called. -/
theorem settings_commit_replaces_settings_only (dialog : DialogValues) (response : Int)
    (sample : SamplePlugin) (hresp : response ≠ GTK_RESPONSE_HELP) :
    worker_handles (sample_configure_response dialog response sample).1
      = worker_handles sample ∧
    running_flags (sample_configure_response dialog response sample).1
      = running_flags sample ∧
    (sample_configure_response dialog response sample).1.blocks = sample.blocks ∧
    (sample_configure_response dialog response sample).1.label = sample.label ∧
    settings_of (sample_configure_response dialog response sample).1
      = { weather_location := some (cstr dialog.weather_location_entry)
          exchange_api_key := some (cstr dialog.exchange_api_key_entry)
          update_interval := sample.update_interval
          show_weather := dialog.show_weather_check
          show_exchange := dialog.show_exchange_check
          show_battery := dialog.show_battery_check
          show_memory := dialog.show_memory_check
          show_date := dialog.show_date_check } ∧
    (sample_configure_response dialog response sample).2
      = some (settings_of (sample_configure_response dialog response sample).1) := by
  simp [sample_configure_response, hresp, worker_handles, running_flags, settings_of]

/-! ## Producers: polls -/

theorem try_fragment_ne_nil (shown : List Nat) : (try_fragment shown).length > 0 := by
  simp [try_fragment, lit, utf8Encode]

theorem rub_fragment_ne_nil (shown : List Nat) : (rub_fragment shown).length > 0 := by
  simp [rub_fragment, lit, utf8Encode]

/-- C11: for every rates table the exchange text is the TRY fragment alone when only
TRY is present, the RUB fragment alone when only RUB is present, and the TRY fragment,
one space and the RUB fragment when both are; a poll that obtains the table writes that
text into the ExchangeRate block, and when neither is present the text is empty,
`update_block` is not called and the plugin is unchanged. -/
theorem exchange_text_by_presence (api : MarkupApi) (shown : GDouble → List Nat)
    (http : List Nat → Option (List Nat)) (json : List Nat → ExchangeJson)
    (sample : SamplePlugin) (key body : List Nat) (table : List Nat → Option GDouble)
    (hkey : sample.exchange_api_key = some key)
    (hbody : get_exchange_data http (some key) = some body)
    (hjson : json body = ExchangeJson.rates table) :
    (∀ t, table (lit "TRY") = some t → table (lit "RUB") = none →
      exchange_text shown table = try_fragment (shown t)) ∧
    (∀ r, table (lit "TRY") = none → table (lit "RUB") = some r →
      exchange_text shown table = rub_fragment (shown r)) ∧
    (∀ t r, table (lit "TRY") = some t → table (lit "RUB") = some r →
      exchange_text shown table
        = try_fragment (shown t) ++ lit " " ++ rub_fragment (shown r)) ∧
    ((table (lit "TRY")).isSome = true ∨ (table (lit "RUB")).isSome = true →
      exchange_poll api shown http json sample
        = update_block api sample BLOCK_EXCHANGE_RATE (some (exchange_text shown table))) ∧
    (table (lit "TRY") = none → table (lit "RUB") = none →
      exchange_text shown table = [] ∧
      exchange_poll api shown http json sample = sample) := by
  refine ⟨?_, ?_, ?_, ?_, ?_⟩
  · intro t h1 h2
    simp [exchange_text, h1, h2]
  · intro r h1 h2
    simp [exchange_text, h1, h2]
  · intro t r h1 h2
    simp [exchange_text, h1, h2]
  · intro h
    have hlen : (exchange_text shown table).length > 0 := by
      cases h1 : table (lit "TRY") with
      | some t =>
        cases h2 : table (lit "RUB") with
        | some r =>
          have := try_fragment_ne_nil (shown t)
          simp only [exchange_text, h1, h2, Option.isSome_some, if_true, List.length_append]
          omega
        | none =>
          simpa [exchange_text, h1, h2] using try_fragment_ne_nil (shown t)
      | none =>
        cases h2 : table (lit "RUB") with
        | some r =>
          have := rub_fragment_ne_nil (shown r)
          simpa [exchange_text, h1, h2] using this
        | none => simp [h1, h2] at h
    simp only [exchange_poll, hkey, hbody, hjson, hlen, if_true]
  · intro h1 h2
    have htext : exchange_text shown table = [] := by simp [exchange_text, h1, h2]
    refine ⟨htext, ?_⟩
    simp [exchange_poll, hkey, hbody, hjson, htext]

/-- Witness for C11: a table with RUB only. -/
theorem exchange_text_by_presence_witness :
    exchange_text (fun _ => lit "92.50")
        (fun code => if code = lit "RUB" then some (GDouble.finite (185 / 2)) else none)
      = rub_fragment (lit "92.50") :=
  (exchange_text_by_presence glib (fun _ => lit "92.50") (fun _ => some (lit "{}"))
    (fun _ => ExchangeJson.rates
      (fun code => if code = lit "RUB" then some (GDouble.finite (185 / 2)) else none))
    { sample_new default_settings with exchange_api_key := some (lit "k3y") }
    (lit "k3y") (lit "{}")
    (fun code => if code = lit "RUB" then some (GDouble.finite (185 / 2)) else none)
    rfl rfl rfl).2.1 (GDouble.finite (185 / 2)) rfl rfl

/-- C17: a poll whose fetch fails or yields nothing returns the plugin as it was, so no
block, flag or pending render changes: Memory when `/proc/meminfo` cannot be opened or
`MemTotal` is 0, Battery when the capacity file cannot be read, Weather and Exchange
when no location or key is set, the transfer fails, the body is not JSON or lacks
`current_weather` or `rates`. -/
theorem failed_poll_leaves_plugin (api : MarkupApi) (sample : SamplePlugin)
    (shown_mem : Nat → List Nat) (shown : GDouble → List Nat)
    (http : List Nat → Option (List Nat)) :
    memory_poll api shown_mem none sample = sample ∧
    (∀ lines, (read_meminfo lines).mem_total = 0 →
      memory_poll api shown_mem (some lines) sample = sample) ∧
    (∀ status_str, battery_poll api none status_str sample = sample) ∧
    (∀ json, sample.weather_location = none →
      weather_poll api shown http json sample = sample) ∧
    (∀ json location, sample.weather_location = some location →
      get_weather_data http (some location) = none →
      weather_poll api shown http json sample = sample) ∧
    (∀ json location body, sample.weather_location = some location →
      get_weather_data http (some location) = some body →
      (json body = WeatherJson.parse_error ∨ json body = WeatherJson.no_current_weather) →
      weather_poll api shown http json sample = sample) ∧
    (∀ json, sample.exchange_api_key = none →
      exchange_poll api shown http json sample = sample) ∧
    (∀ json key, sample.exchange_api_key = some key →
      get_exchange_data http (some key) = none →
      exchange_poll api shown http json sample = sample) ∧
    (∀ json key body, sample.exchange_api_key = some key →
      get_exchange_data http (some key) = some body →
      (json body = ExchangeJson.parse_error ∨ json body = ExchangeJson.no_rates) →
      exchange_poll api shown http json sample = sample) := by
  refine ⟨rfl, ?_, fun _ => rfl, ?_, ?_, ?_, ?_, ?_, ?_⟩
  · intro lines h
    simp [memory_poll, get_memory_info, h]
  · intro json h
    simp [weather_poll, h]
  · intro json location h1 h2
    simp [weather_poll, h1, h2]
  · intro json location body h1 h2 h3
    rcases h3 with h3 | h3 <;> simp [weather_poll, h1, h2, h3]
  · intro json h
    simp [exchange_poll, h]
  · intro json key h1 h2
    simp [exchange_poll, h1, h2]
  · intro json key body h1 h2 h3
    rcases h3 with h3 | h3 <;> simp [exchange_poll, h1, h2, h3]

/-- Witness for C17: a weather poll whose location has no comma, so that
`get_weather_data` returns NULL without a request. -/
theorem failed_poll_leaves_plugin_witness :
    weather_poll glib (fun _ => lit "7.0") (fun _ => some (lit "{}"))
        (fun _ => WeatherJson.current_weather (GDouble.finite 7))
        { sample_new default_settings with weather_location := some (lit "Berlin") }
      = { sample_new default_settings with weather_location := some (lit "Berlin") } :=
  (failed_poll_leaves_plugin glib
    { sample_new default_settings with weather_location := some (lit "Berlin") }
    (fun _ => []) (fun _ => lit "7.0") (fun _ => some (lit "{}"))).2.2.2.2.1
    (fun _ => WeatherJson.current_weather (GDouble.finite 7)) (lit "Berlin") rfl (by decide)

/-- C20: `update_block` with an id of `BLOCK_COUNT` or more, or with a NULL text,
returns the plugin as it was (nothing changed, no render queued).  With a valid id and
a text it leaves every other block, the settings, the thread records and the label as
they were and queues one render; and the length and text it leaves in the addressed
block are the same whatever the plugin held before. -/
theorem update_block_frame (api : MarkupApi) (sample other : SamplePlugin) (block_id : Nat)
    (p : List Nat) :
    (BLOCK_COUNT ≤ block_id → ∀ text, update_block api sample block_id text = sample) ∧
    update_block api sample block_id none = sample ∧
    (∀ h : block_id < BLOCK_COUNT,
      (∀ j : Fin BLOCK_COUNT, j ≠ ⟨block_id, h⟩ →
        (update_block api sample block_id (some p)).blocks j = sample.blocks j) ∧
      settings_of (update_block api sample block_id (some p)) = settings_of sample ∧
      worker_handles (update_block api sample block_id (some p)) = worker_handles sample ∧
      running_flags (update_block api sample block_id (some p)) = running_flags sample ∧
      (update_block api sample block_id (some p)).label = sample.label ∧
      (update_block api sample block_id (some p)).idle_pending = sample.idle_pending + 1 ∧
      ((update_block api sample block_id (some p)).blocks ⟨block_id, h⟩).len
        = ((update_block api other block_id (some p)).blocks ⟨block_id, h⟩).len ∧
      ((sample.blocks ⟨block_id, h⟩).data.length = MAX_BLOCK_SIZE →
        (other.blocks ⟨block_id, h⟩).data.length = MAX_BLOCK_SIZE →
        cstr ((update_block api sample block_id (some p)).blocks ⟨block_id, h⟩).data
          = cstr ((update_block api other block_id (some p)).blocks ⟨block_id, h⟩).data)) := by
  refine ⟨?_, rfl, ?_⟩
  · intro hge text
    cases text with
    | none => rfl
    | some q => simp [update_block, Nat.not_lt.mpr hge]
  · intro h
    have hv := validated_text_no_zero api p
    refine ⟨?_, ?_, ?_, ?_, ?_, ?_, ?_, ?_⟩
    · intro j hj
      rw [update_block_blocks api sample block_id h p, Function.update_noteq hj]
    · simp [update_block, h, settings_of]
    · simp [update_block, h, worker_handles]
    · simp [update_block, h, running_flags]
    · simp [update_block, h]
    · simp [update_block, h]
    · rw [update_block_blocks api sample block_id h p, update_block_blocks api other block_id h p,
        Function.update_same, Function.update_same, store_block_len _ hv, store_block_len _ hv]
    · intro h1 h2
      rw [update_block_blocks api sample block_id h p, update_block_blocks api other block_id h p,
        Function.update_same, Function.update_same, store_block_cstr _ hv h1,
        store_block_cstr _ hv h2]

set_option maxRecDepth 100000 in
/-- Witness for C20: writing a battery text leaves the Date block of the example state
as it was. -/
theorem update_block_frame_witness :
    (update_block glib example_sample BLOCK_BATTERY (some (lit "55%"))).blocks 4
      = example_sample.blocks 4 :=
  ((update_block_frame glib example_sample example_sample BLOCK_BATTERY (lit "55%")).2.2
    (by decide)).1 4 (by decide)

/-! ## Worker threads -/

theorem ticks_since_poll_tick (log : List WorkerEvent) :
    ticks_since_poll (log ++ [WorkerEvent.tick]) = ticks_since_poll log + 1 := by
  simp [ticks_since_poll, List.takeWhile_cons]

theorem ticks_since_poll_poll (log : List WorkerEvent) (k : Nat) :
    ticks_since_poll (log ++ [WorkerEvent.poll k]) = 0 := by
  simp [ticks_since_poll, List.takeWhile_cons]

theorem worker_step_sleep_inv (sleep_time : Nat → Int) (N : Nat)
    (hN : ∀ k, sleep_time k ≤ (N : Int)) (st : WorkerState) (b : Bool)
    (h : SleepInv N st) : SleepInv N (worker_step sleep_time st b) := by
  obtain ⟨h1, h2⟩ := h
  unfold worker_step
  cases hpc : st.pc with
  | at_while =>
    cases b with
    | false =>
      refine ⟨by simpa using h1, ?_⟩
      intro i n hin
      simp at hin
    | true =>
      refine ⟨by simp [ticks_since_poll_poll], ?_⟩
      intro i n hin
      simp only [if_true, enter_sleep] at hin
      split_ifs at hin with hlt
      · simp only [WorkerPc.in_sleep.injEq] at hin
        obtain ⟨hi, hn⟩ := hin
        subst hi; subst hn
        exact ⟨by simp [ticks_since_poll_poll], hlt, hN _⟩
  | in_sleep j m =>
    obtain ⟨hj, hjm, hmN⟩ := h2 j m hpc
    cases b with
    | false =>
      refine ⟨by simpa using h1, ?_⟩
      intro i n hin
      simp at hin
    | true =>
      have hticks : ticks_since_poll (st.log ++ [WorkerEvent.tick]) = j + 1 := by
        rw [ticks_since_poll_tick, ← hj]
      refine ⟨?_, ?_⟩
      · simp only [if_true, hticks]
        omega
      · intro i n hin
        simp only [if_true, enter_sleep] at hin
        split_ifs at hin with hlt
        · simp only [WorkerPc.in_sleep.injEq] at hin
          obtain ⟨hi, hn⟩ := hin
          subst hi; subst hn
          exact ⟨hticks.symm, hlt, hmN⟩
  | returned =>
    refine ⟨by simpa using h1, ?_⟩
    intro i n hin
    simp [hpc] at hin

theorem foldl_sleep_inv (sleep_time : Nat → Int) (N : Nat)
    (hN : ∀ k, sleep_time k ≤ (N : Int)) (obs : List Bool) (st : WorkerState)
    (h : SleepInv N st) : SleepInv N (obs.foldl (worker_step sleep_time) st) := by
  induction obs generalizing st with
  | nil => exact h
  | cons b rest ih => exact ih _ (worker_step_sleep_inv sleep_time N hN st b h)

theorem worker_run_ticks_le (sleep_time : Nat → Int) (N : Nat)
    (hN : ∀ k, sleep_time k ≤ (N : Int)) (obs : List Bool) :
    ticks_since_poll (worker_run sleep_time obs).log ≤ N := by
  have h0 : SleepInv N { pc := WorkerPc.at_while, polls := 0, log := [] } := by
    refine ⟨by simp [ticks_since_poll], ?_⟩
    intro i n hin
    simp at hin
  exact (foldl_sleep_inv sleep_time N hN obs _ h0).1

theorem worker_step_log_length (sleep_time : Nat → Int) (st : WorkerState) (b : Bool) :
    (worker_step sleep_time st b).log.length ≤ st.log.length + (if b then 1 else 0) := by
  unfold worker_step
  cases st.pc <;> cases b <;> simp

theorem foldl_log_length (sleep_time : Nat → Int) (obs : List Bool) (st : WorkerState) :
    (obs.foldl (worker_step sleep_time) st).log.length ≤ st.log.length + obs.count true := by
  induction obs generalizing st with
  | nil => simp
  | cons b rest ih =>
    have h1 := ih (worker_step sleep_time st b)
    have h2 := worker_step_log_length sleep_time st b
    rw [List.foldl_cons]
    cases b <;> simp at h2 ⊢ <;> omega

theorem worker_step_false_log (sleep_time : Nat → Int) (st : WorkerState) :
    (worker_step sleep_time st false).log = st.log := by
  unfold worker_step
  cases st.pc <;> simp

theorem foldl_false_log (sleep_time : Nat → Int) (post : List Bool)
    (hpost : ∀ b ∈ post, b = false) (st : WorkerState) :
    (post.foldl (worker_step sleep_time) st).log = st.log := by
  induction post generalizing st with
  | nil => rfl
  | cons b rest ih =>
    have hb : b = false := hpost b (List.mem_cons_self _ _)
    subst hb
    rw [List.foldl_cons, ih (fun c hc => hpost c (List.mem_cons_of_mem _ hc)),
      worker_step_false_log]

theorem worker_step_returned (sleep_time : Nat → Int) (st : WorkerState) (b : Bool)
    (h : st.pc = WorkerPc.returned) : (worker_step sleep_time st b).pc = WorkerPc.returned := by
  simp [worker_step, h]

theorem foldl_returned (sleep_time : Nat → Int) (obs : List Bool) (st : WorkerState)
    (h : st.pc = WorkerPc.returned) :
    (obs.foldl (worker_step sleep_time) st).pc = WorkerPc.returned := by
  induction obs generalizing st with
  | nil => exact h
  | cons b rest ih => exact ih _ (worker_step_returned sleep_time st b h)

theorem two_false_returned (sleep_time : Nat → Int) (st : WorkerState) :
    (worker_step sleep_time (worker_step sleep_time st false) false).pc
      = WorkerPc.returned := by
  cases hpc : st.pc <;> simp [worker_step, hpc]

/-- The three facts about a polling loop whose sleep times are at most `N`: a sleep has
at most `N` ticks, every poll and every tick follows a test that read the flag as set,
and once the flag reads false and stays false nothing more is done and the function
returns. -/
theorem worker_run_facts (sleep_time : Nat → Int) (N : Nat)
    (hN : ∀ k, sleep_time k ≤ (N : Int)) (obs pre post : List Bool)
    (hpost : ∀ b ∈ post, b = false) :
    ticks_since_poll (worker_run sleep_time obs).log ≤ N ∧
    (worker_run sleep_time obs).log.length ≤ obs.count true ∧
    (worker_run sleep_time (pre ++ false :: post)).log = (worker_run sleep_time pre).log ∧
    (worker_run sleep_time (pre ++ false :: false :: post)).pc = WorkerPc.returned := by
  refine ⟨worker_run_ticks_le sleep_time N hN obs, ?_, ?_, ?_⟩
  · simpa [worker_run] using foldl_log_length sleep_time obs
      { pc := WorkerPc.at_while, polls := 0, log := [] }
  · simp only [worker_run, List.foldl_append, List.foldl_cons]
    rw [foldl_false_log sleep_time post hpost, worker_step_false_log]
  · simp only [worker_run, List.foldl_append, List.foldl_cons]
    exact foldl_returned sleep_time post _ (two_false_returned sleep_time _)

/-- C18: for each of the five thread functions, with its cadence (5 ticks for Memory,
10 for Battery, 1800 for Weather and Exchange, at most 60 for Date): whatever the flag
reads, a sleep never has more ticks than the cadence; every poll and every tick follows
a test that read the flag as set; and when the flag reads false and stays false, the
worker does nothing more (no tick, no poll, hence no `update_block`) and returns. -/
theorem workers_sleep_in_ticks (tm_sec : Nat → Int) (htm : ∀ k, 0 ≤ tm_sec k)
    (obs pre post : List Bool) (hpost : ∀ b ∈ post, b = false) :
    ∀ w ∈ [(memory_thread_func, 5), (battery_thread_func, 10), (weather_thread_func, 1800),
        (exchange_thread_func, 1800), (date_thread_func tm_sec, 60)],
      ticks_since_poll (w.1 obs).log ≤ w.2 ∧
      (w.1 obs).log.length ≤ obs.count true ∧
      (w.1 (pre ++ false :: post)).log = (w.1 pre).log ∧
      (∀ poll sample, run_polls poll (w.1 (pre ++ false :: post)).log sample
        = run_polls poll (w.1 pre).log sample) ∧
      (w.1 (pre ++ false :: false :: post)).pc = WorkerPc.returned := by
  intro w hw
  simp only [List.mem_cons, List.mem_singleton, List.not_mem_nil, or_false] at hw
  have key : ∀ (sleep_time : Nat → Int) (N : Nat), (∀ k, sleep_time k ≤ (N : Int)) →
      ticks_since_poll (worker_run sleep_time obs).log ≤ N ∧
      (worker_run sleep_time obs).log.length ≤ obs.count true ∧
      (worker_run sleep_time (pre ++ false :: post)).log = (worker_run sleep_time pre).log ∧
      (∀ poll sample, run_polls poll (worker_run sleep_time (pre ++ false :: post)).log sample
        = run_polls poll (worker_run sleep_time pre).log sample) ∧
      (worker_run sleep_time (pre ++ false :: false :: post)).pc = WorkerPc.returned := by
    intro sleep_time N hN
    have h := worker_run_facts sleep_time N hN obs pre post hpost
    exact ⟨h.1, h.2.1, h.2.2.1, fun poll sample => by rw [h.2.2.1], h.2.2.2⟩
  rcases hw with hw | hw | hw | hw | hw <;> subst hw
  · exact key (fun _ => 5) 5 (fun _ => by norm_num)
  · exact key (fun _ => 10) 10 (fun _ => by norm_num)
  · exact key (fun _ => 1800) 1800 (fun _ => by norm_num)
  · exact key (fun _ => 1800) 1800 (fun _ => by norm_num)
  · exact key (fun k => 60 - tm_sec k) 60 (fun k => by have := htm k; push_cast; omega)

/-- Witness for C18: the Memory worker is stopped during its second sleep. -/
theorem workers_sleep_in_ticks_witness :
    (memory_thread_func ([true, true, true, true, true, true, true, true] ++ false :: [false])).log
      = (memory_thread_func [true, true, true, true, true, true, true, true]).log ∧
    (memory_thread_func [true, true, true, true, true, true, true, true]).log
      = [WorkerEvent.poll 0, WorkerEvent.tick, WorkerEvent.tick, WorkerEvent.tick,
         WorkerEvent.tick, WorkerEvent.tick, WorkerEvent.poll 1, WorkerEvent.tick] :=
  ⟨(workers_sleep_in_ticks (fun _ => 0) (fun _ => Int.le_refl 0) []
      [true, true, true, true, true, true, true, true] [false] (by decide)
      (memory_thread_func, 5) (by simp)).2.2.1, by decide⟩

theorem sleep_through (sleep_time : Nat → Int) (m : Nat) :
    ∀ (i : Nat) (n : Int) (st : WorkerState), st.pc = WorkerPc.in_sleep i n →
      (i : Int) + (m + 1 : Nat) = n →
      (List.replicate (m + 1) true).foldl (worker_step sleep_time) st
        = { pc := WorkerPc.at_while, polls := st.polls,
            log := st.log ++ List.replicate (m + 1) WorkerEvent.tick } := by
  induction m with
  | zero =>
    intro i n st hpc hn
    have hlt : n ≤ (i : Int) + 1 := by push_cast at hn; omega
    simp [worker_step, hpc, enter_sleep, hlt]
  | succ m ih =>
    intro i n st hpc hn
    have hlt : (i : Int) + 1 < n := by push_cast at hn; omega
    rw [List.replicate_succ, List.foldl_cons]
    have hstep : worker_step sleep_time st true
        = { pc := WorkerPc.in_sleep (i + 1) n, polls := st.polls,
            log := st.log ++ [WorkerEvent.tick] } := by
      simp [worker_step, hpc, enter_sleep, hlt]
    rw [hstep, ih (i + 1) n _ rfl (by push_cast at hn ⊢; omega)]
    simp [List.replicate_succ]

/-- C19 as stated fails at a leap second: with a seconds field of 60 the sleep time
`60 - 60` is zero, the sleep loop makes no tick, and the worker polls again at its very
next test of the flag. -/
theorem date_worker_no_sleep_at_leap_second :
    (60 : Int) - 60 = 0 ∧
    (date_thread_func (fun _ => 60) [true, true, true]).log
      = [WorkerEvent.poll 0, WorkerEvent.poll 1, WorkerEvent.poll 2] ∧
    ticks_since_poll (date_thread_func (fun _ => 60) [true, true, true]).log = 0 := by
  decide

/-- C19, amended: when the Date worker polls at a local time whose seconds field `s` is
between 0 and 59 and its flag stays set, it then makes exactly `60 - s` one-second
ticks, a number between 1 and 60, and is back at the test of its `while` loop, ready
for the next poll.  (At a leap second, `s = 60`, the sleep is zero ticks.) -/
theorem date_worker_sleeps_to_next_minute (tm_sec : Nat → Int) (pre : List Bool)
    (hpc : (date_thread_func tm_sec pre).pc = WorkerPc.at_while)
    (hlo : 0 ≤ tm_sec (date_thread_func tm_sec pre).polls)
    (hhi : tm_sec (date_thread_func tm_sec pre).polls ≤ 59) :
    1 ≤ (60 - tm_sec (date_thread_func tm_sec pre).polls).toNat ∧
    (60 - tm_sec (date_thread_func tm_sec pre).polls).toNat ≤ 60 ∧
    date_thread_func tm_sec (pre ++ List.replicate
        (1 + (60 - tm_sec (date_thread_func tm_sec pre).polls).toNat) true)
      = { pc := WorkerPc.at_while,
          polls := (date_thread_func tm_sec pre).polls + 1,
          log := (date_thread_func tm_sec pre).log
            ++ WorkerEvent.poll (date_thread_func tm_sec pre).polls
              :: List.replicate (60 - tm_sec (date_thread_func tm_sec pre).polls).toNat
                  WorkerEvent.tick } := by
  have hst : date_thread_func tm_sec pre
      = pre.foldl (worker_step (fun k => 60 - tm_sec k))
          { pc := WorkerPc.at_while, polls := 0, log := [] } := rfl
  generalize hn : (60 - tm_sec (date_thread_func tm_sec pre).polls).toNat = n
  have hn1 : (n : Int) = 60 - tm_sec (date_thread_func tm_sec pre).polls := by
    rw [← hn]; omega
  have hpos : 1 ≤ n := by omega
  refine ⟨hpos, by omega, ?_⟩
  obtain ⟨m, rfl⟩ : ∃ m, n = m + 1 := ⟨n - 1, by omega⟩
  have hunfold : date_thread_func tm_sec (pre ++ List.replicate (1 + (m + 1)) true)
      = (List.replicate (m + 1) true).foldl (worker_step (fun k => 60 - tm_sec k))
          (worker_step (fun k => 60 - tm_sec k) (date_thread_func tm_sec pre) true) := by
    rw [Nat.add_comm 1 (m + 1), List.replicate_succ]
    simp [date_thread_func, worker_run, List.foldl_append]
  have hlt : tm_sec (date_thread_func tm_sec pre).polls < 60 := by omega
  have hstep : worker_step (fun k => 60 - tm_sec k) (date_thread_func tm_sec pre) true
      = { pc := WorkerPc.in_sleep 0 (60 - tm_sec (date_thread_func tm_sec pre).polls),
          polls := (date_thread_func tm_sec pre).polls + 1,
          log := (date_thread_func tm_sec pre).log
            ++ [WorkerEvent.poll (date_thread_func tm_sec pre).polls] } := by
    simp [worker_step, hpc, enter_sleep, hlt]
  rw [hunfold, hstep, sleep_through _ m 0 _ _ rfl (by push_cast at hn1 ⊢; omega)]
  simp

/-- Witness for C19 (amended): a poll at second 58 is followed by two ticks. -/
theorem date_worker_sleeps_to_next_minute_witness :
    (date_thread_func (fun _ => 58) ([] ++ List.replicate (1 + ((60 : Int) - 58).toNat) true)).log
      = [WorkerEvent.poll 0, WorkerEvent.tick, WorkerEvent.tick] :=
  (congrArg WorkerState.log
    (date_worker_sleeps_to_next_minute (fun _ => 58) [] rfl (by decide) (by decide)).2.2).trans
    (by decide)

/-! ## Locking -/

set_option maxRecDepth 100000 in
/-- C21 as stated fails for `update_block`: writing the text `a<b`, which is not valid
markup, the validation, the escaping and the warning all happen after the lock and
before the unlock. -/
theorem update_block_validates_while_locked :
    while_locked false (update_block_trace glib BLOCK_DATE (some (lit "a<b")))
      = [LockEvent.validate (lit "a<b"), LockEvent.escape (lit "a<b"), LockEvent.warning,
         LockEvent.store BLOCK_DATE] ∧
    LockEvent.validate (lit "a<b")
      ∈ while_locked false (update_block_trace glib BLOCK_DATE (some (lit "a<b"))) ∧
    LockEvent.warning
      ∈ while_locked false (update_block_trace glib BLOCK_DATE (some (lit "a<b"))) := by
  decide

theorem while_locked_reads (held : Bool) (l : List Nat) (rest : List LockEvent) :
    while_locked held (l.map LockEvent.read ++ rest)
      = (if held then l.map LockEvent.read else []) ++ while_locked held rest := by
  induction l with
  | nil => cases held <;> simp
  | cons i l ih => cases held <;> simp_all [while_locked]

/-- C21, amended: on every path `update_block` and `update_display` lock the mutex at
most once, unlock it as often, and do not hold it when they return.  In
`update_display` only the reads of the blocks happen while it is held: validation,
warning and the calls on the label come after the unlock.  In `update_block` the
validation of the text, and for an invalid text its escaping and the warning, happen
while the mutex is held, followed by the store; only `g_idle_add` comes after the
unlock. -/
theorem lock_held_for_store_access (api : MarkupApi) (sample : SamplePlugin)
    (block_id : Nat) (text : Option (List Nat)) :
    LockedOnce (update_block_trace api block_id text) ∧
    LockedOnce (update_display_trace api sample) ∧
    (∀ e ∈ while_locked false (update_display_trace api sample), ∃ i, e = LockEvent.read i) ∧
    (∀ p, text = some p → block_id < BLOCK_COUNT →
      while_locked false (update_block_trace api block_id text)
        = LockEvent.validate (cstr p)
          :: ((if api.pango_parse_markup (cstr p) then []
                else [LockEvent.escape (cstr p), LockEvent.warning])
              ++ [LockEvent.store block_id])) ∧
    LockEvent.idle_add ∉ while_locked false (update_block_trace api block_id text) := by
  have hblock : ∀ p, text = some p → block_id < BLOCK_COUNT →
      update_block_trace api block_id text
        = [LockEvent.lock, LockEvent.validate (cstr p)]
          ++ (if api.pango_parse_markup (cstr p) then []
              else [LockEvent.escape (cstr p), LockEvent.warning])
          ++ [LockEvent.store block_id, LockEvent.unlock, LockEvent.idle_add] := by
    intro p hp hb
    simp [update_block_trace, hp, hb]
  refine ⟨?_, ?_, ?_, ?_, ?_⟩
  · cases text with
    | none => simp [update_block_trace, LockedOnce, held_after]
    | some p =>
      by_cases hb : block_id < BLOCK_COUNT
      · rw [hblock p rfl hb]
        cases api.pango_parse_markup (cstr p) <;> simp [LockedOnce, held_after]
      · simp [update_block_trace, hb, LockedOnce, held_after]
  · unfold update_display_trace
    cases sample.label with
    | none => simp [LockedOnce, held_after]
    | some l =>
      simp only [range_block_count]
      split_ifs <;> simp [LockedOnce, held_after]
  · unfold update_display_trace
    cases sample.label with
    | none => simp [while_locked]
    | some l =>
      simp only [range_block_count]
      split_ifs <;> simp [while_locked]
  · intro p hp hb
    rw [hblock p hp hb]
    cases api.pango_parse_markup (cstr p) <;> simp [while_locked]
  · cases text with
    | none => simp [update_block_trace, while_locked]
    | some p =>
      by_cases hb : block_id < BLOCK_COUNT
      · rw [hblock p rfl hb]
        cases api.pango_parse_markup (cstr p) <;> simp [while_locked]
      · simp [update_block_trace, hb, while_locked]

set_option maxRecDepth 100000 in
/-- Witness for C21 (amended): a valid date line; only the validation and the store
happen while the mutex is held. -/
theorem lock_held_for_store_access_witness :
    while_locked false (update_block_trace glib BLOCK_DATE (some (lit "<b>14:47</b>")))
      = [LockEvent.validate (lit "<b>14:47</b>"), LockEvent.store BLOCK_DATE] :=
  ((lock_held_for_store_access glib example_sample BLOCK_DATE
      (some (lit "<b>14:47</b>"))).2.2.2.1 (lit "<b>14:47</b>") rfl (by decide)).trans
    (by decide)

/-! ## HTTP responses -/

theorem write_response_callback_buffer (contents : List Nat) (output : Option (List Nat)) :
    write_response_callback contents 1 contents.length output
      = (some (contents ++ [0]), contents.length) := by
  have hlen : (g_realloc output (contents.length + 1)).length = contents.length + 1 := by
    simp [g_realloc]
  have hdrop : (g_realloc output (contents.length + 1)).drop contents.length ≠ [] := by
    intro h
    have := congrArg List.length h
    simp [hlen] at this
  obtain ⟨x, xs, hx⟩ := List.exists_cons_of_ne_nil hdrop
  have hxs : xs = [] := by
    have := congrArg List.length hx
    simp [hlen] at this
    exact this
  subst hxs
  simp only [write_response_callback, Nat.one_mul, memcpy, List.take_length, hx]
  rw [List.set_append_right _ _ (Nat.le_refl _), Nat.sub_self]
  rfl

/-- After one or more chunks the response buffer holds the last chunk alone, followed
by a NUL: each call of `write_response_callback` copies to the start of the buffer. -/
theorem deliver_chunks_last (chunks : List (List Nat)) (last : List Nat) :
    deliver_chunks (chunks ++ [last]) = some (last ++ [0]) := by
  simp [deliver_chunks, List.foldl_append, write_response_callback_buffer]

set_option maxRecDepth 100000 in
/-- C22, the code at the failing input: a weather response delivered in two chunks.
Both calls return the number of bytes they were given, but afterwards the buffer holds
the second chunk alone, not the two chunks one after the other. -/
theorem write_response_callback_keeps_last_chunk :
    (write_response_callback weather_chunk_1 1 37 none).2 = 37 ∧
    (write_response_callback weather_chunk_2 1 2
        (write_response_callback weather_chunk_1 1 37 none).1).2 = 2 ∧
    response_text [weather_chunk_1, weather_chunk_2] = some weather_chunk_2 ∧
    response_text [weather_chunk_1, weather_chunk_2]
      ≠ some (weather_chunk_1 ++ weather_chunk_2) := by
  decide

end StatusBar
